import Mathlib

set_option maxRecDepth 100000

/-!
Verification development for the RaPi-Backup status-coordination engine
(`scripts/transfer-gui.py` and `scripts/status-server.py`).

The Python sources are shallowly embedded: file contents are `List Char`,
a file that may be absent or unreadable is `Option (Option (List Char))`
(`none` = absent, `some none` = the read raised, `some (some c)` = content
`c`), Python dicts produced by `json.loads` are association lists inside a
`Json` value (duplicate keys resolve to the last one, as in CPython), and
each GTK handler becomes a function on an explicit state record.
-/

/-- Whitespace characters recognised by Python `str.strip` and by the
`\s` class of the `re` module (the subset that can occur in the files). -/
def wsChar (c : Char) : Bool :=
  c = ' ' || c = '\t' || c = '\n' || c = '\r' || c = '\x0b' || c = '\x0c'

/-- Python `str.strip()`: drop whitespace from both ends. -/
def pyStrip (s : List Char) : List Char :=
  ((s.dropWhile wsChar).reverse.dropWhile wsChar).reverse

/-- Decimal value of a digit string, as computed by Python `int` on the
digits captured by `(\d+)` and by `json.loads` on an integer literal. -/
def digitsToNat (ds : List Char) : Nat :=
  ds.foldl (fun a c => a * 10 + (c.toNat - 48)) 0

/-- JSON values as produced by `json.loads` on the status files: objects
keep their key/value pairs in textual order (lookup takes the last
binding, matching CPython dict construction).  Numbers are modelled as
integers, which covers every numeric field of the progress contract. -/
inductive Json where
  | null : Json
  | bool : Bool → Json
  | num : Int → Json
  | str : List Char → Json
  | arr : List Json → Json
  | obj : List (List Char × Json) → Json
deriving Repr, Inhabited, BEq

/-- Python dict lookup with default (`dict.get(k, d)`); on duplicate keys
the last binding wins, as in `dict` built by `json.loads`. -/
def dictGet (l : List (List Char × Json)) (k : List Char) (d : Json) : Json :=
  (l.foldl (fun acc kv => if kv.1 = k then some kv.2 else acc) none).getD d

/-- Runtime errors of the embedded Python fragments.  `attributeError`
models calling `.get` on a non-dict value. -/
inductive PyErr where
  | attributeError : PyErr
deriving Repr, DecidableEq

/-- Python `progress.get(k, d)`: raises `AttributeError` unless the
receiver is a dict. -/
def pyGet (j : Json) (k : List Char) (d : Json) : Except PyErr Json :=
  match j with
  | Json.obj l => Except.ok (dictGet l k d)
  | _ => Except.error PyErr.attributeError

/-- Python truthiness of a JSON value (`if message:` style tests). -/
def jTruthy (j : Json) : Bool :=
  match j with
  | Json.null => false
  | Json.bool b => b
  | Json.num n => n != 0
  | Json.str s => s != []
  | Json.arr a => a != []
  | Json.obj l => l != []

/-- Text rendering of a JSON value as interpolated into the GUI's
f-strings.  Only `str` and `num` values reach a label in the modelled
flows. -/
def jText (j : Json) : List Char :=
  match j with
  | Json.str s => s
  | Json.num n => (toString n).toList
  | Json.bool b => (toString b).toList
  | Json.null => "None".toList
  | Json.arr _ => []
  | Json.obj _ => []

/-- Integer reading of a numeric JSON field (comparisons such as
`existing > 0` in `update_transfer`; the contract supplies integers). -/
def jInt (j : Json) : Int :=
  match j with
  | Json.num n => n
  | _ => 0

/-- Drop leading JSON whitespace, as `json.loads` does between tokens. -/
def skipWs : List Char → List Char
  | [] => []
  | c :: r => if wsChar c then skipWs r else c :: r

/-- Body of a JSON string after the opening quote, handling the escape
sequences that can occur; returns the decoded text and the input after
the closing quote; `none` when the string is unterminated or holds an
unsupported escape (where `json.loads` raises). -/
def parseStringBody : List Char → Option (List Char × List Char)
  | [] => none
  | c :: r =>
    if c = '"' then some ([], r)
    else if c = '\\' then
      match r with
      | [] => none
      | e :: r' =>
        let d : Option Char :=
          if e = '"' then some '"'
          else if e = '\\' then some '\\'
          else if e = '/' then some '/'
          else if e = 'n' then some '\n'
          else if e = 't' then some '\t'
          else if e = 'r' then some '\r'
          else none
        match d with
        | none => none
        | some dc =>
          match parseStringBody r' with
          | none => none
          | some (s, rest) => some (dc :: s, rest)
    else
      match parseStringBody r with
      | none => none
      | some (s, rest) => some (c :: s, rest)

/-- Digit run of a JSON integer literal: nonempty, no redundant leading
zero (as enforced by `json.loads`). -/
def parseDigitsTok (s : List Char) : Option (Nat × List Char) :=
  let ds := s.takeWhile Char.isDigit
  if ds = [] then none
  else if 1 < ds.length ∧ ds.head? = some '0' then none
  else some (digitsToNat ds, s.dropWhile Char.isDigit)

/-- Integer token of the JSON grammar: optional minus sign, then the
digit run. -/
def parseIntTok (s : List Char) : Option (Int × List Char) :=
  if s.head? = some '-' then
    match parseDigitsTok s.tail with
    | some (n, rest) => some (-(n : Int), rest)
    | none => none
  else
    match parseDigitsTok s with
    | some (n, rest) => some ((n : Int), rest)
    | none => none

mutual

/-- Recursive-descent JSON value parser modelling `json.loads` (on the
integer-number fragment of the grammar used by the status files).  `fuel`
bounds the recursion depth; `jsonParse` supplies enough for any input. -/
def parseValue : Nat → List Char → Option (Json × List Char)
  | 0, _ => none
  | fuel + 1, s =>
    match skipWs s with
    | [] => none
    | c :: r =>
      if c = '\x7b' then parseObjRest fuel (skipWs r) [] true
      else if c = '[' then parseArrRest fuel (skipWs r) [] true
      else if c = '"' then
        match parseStringBody r with
        | some (t, rest) => some (Json.str t, rest)
        | none => none
      else if c = 't' then
        if List.isPrefixOf ['r', 'u', 'e'] r then some (Json.bool true, r.drop 3) else none
      else if c = 'f' then
        if List.isPrefixOf ['a', 'l', 's', 'e'] r then some (Json.bool false, r.drop 4) else none
      else if c = 'n' then
        if List.isPrefixOf ['u', 'l', 'l'] r then some (Json.null, r.drop 3) else none
      else
        match parseIntTok (c :: r) with
        | some (n, rest) => some (Json.num n, rest)
        | none => none

/-- Members of a JSON object after `{` (whitespace already skipped).
`allowClose` is true only before the first member, so a trailing comma is
rejected exactly as `json.loads` rejects it. -/
def parseObjRest : Nat → List Char → List (List Char × Json) → Bool →
    Option (Json × List Char)
  | 0, _, _, _ => none
  | fuel + 1, s, acc, allowClose =>
    match s with
    | '\x7d' :: r => if allowClose then some (Json.obj acc.reverse, r) else none
    | '"' :: r =>
      match parseStringBody r with
      | none => none
      | some (k, rest) =>
        match skipWs rest with
        | ':' :: rest2 =>
          match parseValue fuel rest2 with
          | none => none
          | some (v, rest3) =>
            match skipWs rest3 with
            | ',' :: rest4 => parseObjRest fuel (skipWs rest4) ((k, v) :: acc) false
            | '\x7d' :: rest4 => some (Json.obj ((k, v) :: acc).reverse, rest4)
            | _ => none
        | _ => none
    | _ => none

/-- Elements of a JSON array after `[` (whitespace already skipped). -/
def parseArrRest : Nat → List Char → List Json → Bool → Option (Json × List Char)
  | 0, _, _, _ => none
  | fuel + 1, s, acc, allowClose =>
    match s with
    | ']' :: r => if allowClose then some (Json.arr acc.reverse, r) else none
    | s' =>
      match parseValue fuel s' with
      | none => none
      | some (v, rest) =>
        match skipWs rest with
        | ',' :: rest2 => parseArrRest fuel (skipWs rest2) (v :: acc) false
        | ']' :: rest2 => some (Json.arr (v :: acc).reverse, rest2)
        | _ => none

end

/-- Model of `json.loads content`: parse one value and require only
whitespace to remain, else the decode error. -/
def jsonParse (s : List Char) : Option Json :=
  match parseValue (2 * s.length + 2) s with
  | none => none
  | some (j, rest) => if skipWs rest = [] then some j else none

/-- Literal part `"file_types": ` of the repair pattern
`r'"file_types": \{[^}]*\}+'` in `update_transfer`. -/
def litFT : List Char :=
  ['"', 'f', 'i', 'l', 'e', '_', 't', 'y', 'p', 'e', 's', '"', ':', ' ']

/-- Replacement text `"file_types": {}` of the repair substitution. -/
def ftRepl : List Char := litFT ++ ['\x7b', '\x7d']

/-- Boolean prefix check bounds the length of the candidate (stated as a
proof-valued definition because `ftMatch`'s termination argument needs it
among the definitions). -/
def isPrefixOf_length_le :
    ∀ {a b : List Char}, List.isPrefixOf a b = true → a.length ≤ b.length := by
  intro a
  induction a with
  | nil => intro b _; simp
  | cons x xs ih =>
    intro b h
    cases b with
    | nil => simp [List.isPrefixOf] at h
    | cons y ys =>
      simp only [List.isPrefixOf, Bool.and_eq_true, beq_iff_eq] at h
      have := ih h.2
      simp only [List.length_cons]
      omega

/-- Dropping a prefix by predicate never lengthens a list. -/
def length_dropWhile_le (p : Char → Bool) :
    ∀ l : List Char, (l.dropWhile p).length ≤ l.length := by
  intro l
  induction l with
  | nil => simp
  | cons x xs ih =>
    by_cases hx : p x
    · simp only [List.dropWhile_cons, hx, if_true, List.length_cons]
      omega
    · simp [List.dropWhile_cons, hx]

/-- Attempt the repair pattern at the head of `s`: the literal
`"file_types": `, an opening brace, a maximal run of non-`}` characters
(`[^}]*`), then a maximal nonempty run of `}` (`\}+`, greedy).  Returns
the input after the match. -/
def ftMatch (s : List Char) : Option (List Char) :=
  if List.isPrefixOf (litFT ++ ['\x7b']) s then
    let r2 := s.drop (litFT.length + 1)
    let r3 := r2.dropWhile (fun c => c ≠ '\x7d')
    if r3.head? = some '\x7d' then some (r3.tail.dropWhile (fun c => c = '\x7d'))
    else none
  else none

def ftMatch_length {s rem : List Char} (h : ftMatch s = some rem) :
    rem.length < s.length := by
  unfold ftMatch at h
  by_cases hp : List.isPrefixOf (litFT ++ ['\x7b']) s
  · rw [if_pos hp] at h
    by_cases hh : ((s.drop (litFT.length + 1)).dropWhile
        (fun c => c ≠ '\x7d')).head? = some '\x7d'
    · rw [if_pos hh] at h
      injection h with hrem
      set r2 := s.drop (litFT.length + 1) with hr2
      set r3 := r2.dropWhile (fun c => c ≠ '\x7d') with hr3
      have h1 : rem.length ≤ r3.tail.length := by
        rw [← hrem]; exact length_dropWhile_le _ _
      have h2 : r3 ≠ [] := by
        intro hn; rw [hn] at hh; simp at hh
      have h3 : r3.tail.length + 1 = r3.length := by
        cases hc : r3 with
        | nil => exact absurd hc h2
        | cons a t => simp
      have h4 : r3.length ≤ r2.length := length_dropWhile_le _ _
      have h5 : r2.length = s.length - (litFT.length + 1) := by
        rw [hr2]; simp
      have h6 : litFT.length + 1 ≤ s.length := by
        have := isPrefixOf_length_le hp
        simpa using this
      omega
    · rw [if_neg hh] at h; exact absurd h (by simp)
  · rw [if_neg hp] at h; exact absurd h (by simp)

/-- Fuelled scan of
`re.sub(r'"file_types": \{[^}]*\}+', '"file_types": {}', content)`:
scan left to right, replace each match and continue after it.  Each step
consumes at least one character, so fuel equal to the input length (as
supplied by `subFT`) never runs out. -/
def subFTAux : Nat → List Char → List Char
  | 0, s => s
  | _ + 1, [] => []
  | fuel + 1, c :: rest =>
    match ftMatch (c :: rest) with
    | some rem => ftRepl ++ subFTAux fuel rem
    | none => c :: subFTAux fuel rest

/-- Model of the repair substitution applied by `update_transfer`. -/
def subFT (s : List Char) : List Char := subFTAux s.length s

/-- Generic model of `re.search` over a pattern whose match attempt at a
position is `attempt`: try each suffix left to right. -/
def scanFor {α : Type} (attempt : List Char → Option α) : List Char → Option α
  | [] => none
  | c :: r =>
    match attempt (c :: r) with
    | some v => some v
    | none => scanFor attempt r

/-- Match attempt for `lit ++ \s*(\d+)` at the head of `s` (the shape of
`r'"percent":\s*(\d+)'`). -/
def numAt (lit : List Char) (s : List Char) : Option Nat :=
  if List.isPrefixOf lit s then
    let r := (s.drop lit.length).dropWhile wsChar
    let ds := r.takeWhile Char.isDigit
    if ds = [] then none else some (digitsToNat ds)
  else none

/-- Match attempt for `lit ++ \s*"([^"]*)"` at the head of `s` (the shape
of `r'"message":\s*"([^"]*)"'`). -/
def strAt (lit : List Char) (s : List Char) : Option (List Char) :=
  if List.isPrefixOf lit s then
    match (s.drop lit.length).dropWhile wsChar with
    | '"' :: r2 =>
      match r2.dropWhile (fun c => c ≠ '"') with
      | '"' :: _ => some (r2.takeWhile (fun c => c ≠ '"'))
      | _ => none
    | _ => none
  else none

/-- Model of `re.search(lit-pattern + r'\s*(\d+)', content)` returning
the captured integer. -/
def reSearchNum (lit : List Char) (content : List Char) : Option Nat :=
  scanFor (numAt lit) content

/-- Model of `re.search(lit-pattern + r'\s*"([^"]*)"', content)`
returning the captured text. -/
def reSearchStr (lit : List Char) (content : List Char) : Option (List Char) :=
  scanFor (strAt lit) content

/-- Literal `"percent":` of the fallback extractor. -/
def litPercent : List Char := ['"', 'p', 'e', 'r', 'c', 'e', 'n', 't', '"', ':']

/-- Literal `"message":` of the fallback extractor. -/
def litMessage : List Char := ['"', 'm', 'e', 's', 's', 'a', 'g', 'e', '"', ':']

/-- Literal `"current_file":` of the fallback extractor. -/
def litCurrentFile : List Char :=
  ['"', 'c', 'u', 'r', 'r', 'e', 'n', 't', '_', 'f', 'i', 'l', 'e', '"', ':']

/-- Literal `"status":` of the fallback extractor. -/
def litStatus : List Char := ['"', 's', 't', 'a', 't', 'u', 's', '"', ':']

/-- Literal `"speed":` of the fallback extractor. -/
def litSpeed : List Char := ['"', 's', 'p', 'e', 'e', 'd', '"', ':']

/-- The dict built by `update_transfer`'s `except json.JSONDecodeError`
branch: each field is regex-extracted independently and falls back to its
default.  (The branch re-reads the progress file; one tick is modelled as
seeing a single content, so the same `content` is used.) -/
def fallbackProgress (content : List Char) : Json :=
  Json.obj [
    ("percent".toList,
      Json.num (match reSearchNum litPercent content with
        | some n => (n : Int)
        | none => 0)),
    ("message".toList,
      Json.str ((reSearchStr litMessage content).getD "Transferring...".toList)),
    ("current_file".toList,
      Json.str ((reSearchStr litCurrentFile content).getD [])),
    ("status".toList,
      Json.str ((reSearchStr litStatus content).getD "transferring".toList)),
    ("speed".toList,
      Json.str ((reSearchStr litSpeed content).getD "--".toList))]

/-- The `progress` value after the tolerant read in `update_transfer`
(lines 982-1014): absent file or failed read leave the initial `{}`;
otherwise the brace-repair substitution is applied and the result parsed;
on a decode error the per-field extractors run on the same content. -/
def readProgressVal (file : Option (Option (List Char))) : Json :=
  match file with
  | none => Json.obj []
  | some none => Json.obj []
  | some (some content) =>
    match jsonParse (subFT content) with
    | some j => j
    | none => fallbackProgress content

/-- The `status` string read each tick by `update_transfer` (lines
973-980): empty when the file is absent or the read raises, else the
stripped content. -/
def readPhase (file : Option (Option (List Char))) : List Char :=
  match file with
  | none => []
  | some none => []
  | some (some c) => pyStrip c

/-- `StatusHandler.get_status` of `status-server.py` (lines 154-161):
`IDLE` when the file is absent, the read raises, or the stripped content
is empty (`f.read().strip() or "IDLE"`). -/
def get_status (file : Option (Option (List Char))) : List Char :=
  match file with
  | none => "IDLE".toList
  | some none => "IDLE".toList
  | some (some c) =>
    let t := pyStrip c
    if t = [] then "IDLE".toList else t

/-- `PEBLTransferMonitor.is_in_sync_window` (transfer-gui.py lines
588-596), with the current hour (`datetime.now().hour`) passed
explicitly. -/
def is_in_sync_window (start_hour end_hour hour : Nat) : Bool :=
  if start_hour > end_hour then
    decide (hour ≥ start_hour) || decide (hour < end_hour)
  else
    decide (hour ≥ start_hour) && decide (hour < end_hour)

/-- The persisted sync configuration (`sync-config.json`): mode plus
window hours, all keys always present (as written by `save_config`). -/
structure SyncConfig where
  mode : List Char
  start_hour : Nat
  end_hour : Nat
deriving Repr, DecidableEq

/-- State touched by the sync-mode handlers: the config, the current
hour, the two external sync processes killed by `pkill`, and the
`/tmp/gdrive-sync.lock` marker. -/
structure SyncSys where
  config : SyncConfig
  hour : Nat
  backupToGdriveRunning : Bool
  rcloneSyncRunning : Bool
  gdriveSyncLock : Bool
deriving Repr, DecidableEq

/-- `stop_running_sync` (lines 598-603): `pkill -f backup-to-gdrive`,
`pkill -f "rclone sync"`, `rm -f /tmp/gdrive-sync.lock`. -/
def stop_running_sync (s : SyncSys) : SyncSys :=
  { s with backupToGdriveRunning := false, rcloneSyncRunning := false,
           gdriveSyncLock := false }

/-- `apply_sync_mode_change` (lines 605-617): in `24hr` mode nothing
happens; otherwise the running sync is stopped exactly when the current
hour is outside the configured window. -/
def apply_sync_mode_change (s : SyncSys) : SyncSys :=
  if s.config.mode = "24hr".toList then s
  else if is_in_sync_window s.config.start_hour s.config.end_hour s.hour then s
  else stop_running_sync s

/-- `on_sync_mode_24hr` (lines 619-624): set the mode and persist; the
handler deliberately does not call `apply_sync_mode_change`. -/
def on_sync_mode_24hr (s : SyncSys) : SyncSys :=
  { s with config := { s.config with mode := "24hr".toList } }

/-- `on_sync_mode_night` (lines 626-633): fix the window to 22-6,
persist, then apply the change. -/
def on_sync_mode_night (s : SyncSys) : SyncSys :=
  apply_sync_mode_change
    { s with config := ⟨"night".toList, 22, 6⟩ }

/-- `on_sync_mode_custom` (lines 635-677), `Save` path: store the picked
hours under mode `scheduled`, persist, then apply the change. -/
def on_sync_mode_custom_save (sh eh : Nat) (s : SyncSys) : SyncSys :=
  apply_sync_mode_change
    { s with config := ⟨"scheduled".toList, sh, eh⟩ }

/-- Sync-panel schedule projection computed by `update_sync`. -/
inductive SchedView where
  | continuous : SchedView
  | active (startH endH : Nat) : SchedView
  | waiting (startH : Nat) (h m : Int) : SchedView
deriving Repr, DecidableEq

/-- Schedule part of `PEBLTransferMonitor.update_sync` (lines 1273-1315):
the mode label / window-activity projection.  `hour`/`minute` are
`now.hour`/`now.minute`; `now.second` cancels in the delta because
`now.replace(hour=start, minute=0)` keeps it.  Note both the `night` and
the `scheduled` branch compute `in_window = now.hour >= start or
now.hour < end` (the overnight formula) without comparing `start` and
`end`. -/
def update_sync_schedule (mode : List Char) (start_hour end_hour : Nat)
    (hour minute : Nat) : SchedView :=
  if mode = "24hr".toList then SchedView.continuous
  else if mode = "night".toList then
    let start := 22
    let e := 6
    if hour ≥ start ∨ hour < e then SchedView.active start e
    else
      let total : Int := ((start : Int) - hour) * 3600 - (minute : Int) * 60 +
        (if hour ≥ e then 0 else 86400)
      SchedView.waiting start (Int.fdiv total 3600) (Int.fdiv (Int.fmod total 3600) 60)
  else
    let start := start_hour
    let e := end_hour
    if hour ≥ start ∨ hour < e then SchedView.active start e
    else
      let total : Int := ((start : Int) - hour) * 3600 - (minute : Int) * 60 +
        (if hour ≥ e then 0 else 86400)
      SchedView.waiting start (Int.fdiv total 3600) (Int.fdiv (Int.fmod total 3600) 60)

/-- Response id sent by the `Skip Existing` button of
`show_decision_dialog` (line 839). -/
def skip_response : Int := 1

/-- Response id sent by the `Overwrite All` button (line 845). -/
def overwrite_response : Int := 2

/-- Response id GTK delivers when a modal dialog is dismissed without a
button press (`Gtk.ResponseType.DELETE_EVENT`). -/
def delete_event_response : Int := -4

/-- Value chosen by `show_decision_dialog` (line 854):
`"skip" if response == 1 else "overwrite"`. -/
def show_decision_dialog_decision (response : Int) : List Char :=
  if response = 1 then "skip".toList else "overwrite".toList

/-- The sequence of values `show_decision_dialog` writes to the decision
file when the dialog closes (lines 854-859): a single write of the
chosen value, overwriting any previous content. -/
def show_decision_dialog_writes (response : Int) : List (List Char) :=
  [show_decision_dialog_decision response]


/-- Last operation applied to the GTK transfer progress bar. -/
inductive Bar where
  | pulse : Bar
  | frac (pct : Json) : Bar
  | lit (n : Nat) : Bar
deriving Repr

/-- GUI state of `PEBLTransferMonitor` touched by `update_transfer` and
the reset paths: the three flags set in `setup_ui` plus the widgets'
last-set contents (label texts as rendered, booleans for
sensitivity/visibility). -/
structure Gui where
  transfer_done : Bool
  decision_dialog_shown : Bool
  device_ref_dialog_shown : Bool
  status_style : List Char
  status_text : List Char
  bar : Bar
  bar_text : List Char
  message_label : List Char
  file_info : List Char
  file_types_label : List Char
  current_file_label : List Char
  speed_label : List Char
  eject_enabled : Bool
  cancel_visible : Bool
  cancel_sensitive : Bool
deriving Repr

/-- State of the window right after `__init__`/`setup_ui`: flags false,
waiting texts, cancel hidden and insensitive, eject disabled. -/
def initGui : Gui :=
  { transfer_done := false, decision_dialog_shown := false,
    device_ref_dialog_shown := false,
    status_style := [],
    status_text := "Insert USB drive to start backup".toList,
    bar := Bar.lit 0, bar_text := "0%".toList,
    message_label := [], file_info := [], file_types_label := [],
    current_file_label := [], speed_label := [],
    eject_enabled := false, cancel_visible := false, cancel_sensitive := false }

/-- A dialog scheduled through `GLib.idle_add` by `update_transfer`:
the duplicate-resolution prompt with its `(existing, total)` payload, or
the device-naming prompt with its `(total, size_text)` payload. -/
inductive Prompt where
  | decision (existing total : Json) : Prompt
  | deviceRef (total : Json) (sizeText : List Char) : Prompt
deriving Repr

/-- Recognise a scheduled duplicate-resolution prompt. -/
def isDecisionPrompt : Prompt → Bool
  | Prompt.decision _ _ => true
  | _ => false

/-- Recognise a scheduled device-naming prompt. -/
def isDeviceRefPrompt : Prompt → Bool
  | Prompt.deviceRef _ _ => true
  | _ => false

/-- Rendering of the first three `file_types` entries
(`" | ".join(f"{k}: {v}" for ...)` in the `TRANSFERRING` branch). -/
def renderTypes (ts : List (List Char × Json)) : List Char :=
  List.intercalate " | ".toList
    ((ts.take 3).map (fun kv => kv.1 ++ ": ".toList ++ jText kv.2))

/-- Branch logic of `PEBLTransferMonitor.update_transfer` (lines
1016-1218) once the progress dict `l` has been read: returns the updated
GUI state together with the dialogs scheduled during this tick.  Each
branch transcribes the corresponding `elif` of the source; fields the
source does not touch keep their previous value.  In the two pending
branches the latch is set in the same step that emits the prompt, before
the dialog itself runs (the source sets the flag before
`GLib.idle_add`). -/
def update_transfer_render (status : List Char) (l : List (List Char × Json))
    (g : Gui) : Gui × List Prompt :=
  let message := dictGet l "message".toList (Json.str [])
  if status = "DETECTING".toList ∨ status = "MOUNTING".toList ∨
      status = "SCANNING".toList ∨ status = "CHECKING".toList then
    let statusText :=
      if status = "DETECTING".toList then "USB Drive Detected".toList
      else if status = "MOUNTING".toList then "Mounting USB Drive...".toList
      else if status = "SCANNING".toList then "Scanning Files...".toList
      else "Checking for Duplicates...".toList
    let existing := dictGet l "existing_files".toList (Json.num 0)
    let totalJ := dictGet l "files_total".toList (Json.num 0)
    let fileInfo1 :=
      if status = "CHECKING".toList ∧ jInt existing > 0 then
        "Found ".toList ++ jText existing ++ " duplicates out of ".toList ++
          jText totalJ ++ " files".toList
      else g.file_info
    let fileInfo2 :=
      if jInt totalJ > 0 ∧ status ≠ "CHECKING".toList then
        "Found ".toList ++ jText totalJ ++ " files".toList
      else if status ≠ "CHECKING".toList then []
      else fileInfo1
    ({ g with
        status_style := "status-active".toList,
        eject_enabled := false,
        cancel_visible := true, cancel_sensitive := true,
        transfer_done := false,
        bar := Bar.pulse,
        status_text := statusText,
        message_label := jText message,
        file_info := fileInfo2,
        file_types_label := [], current_file_label := [], speed_label := [] }, [])
  else if status = "PENDING_NAME".toList then
    let totalJ := dictGet l "files_total".toList (Json.num 0)
    let sp :=
      if ¬g.device_ref_dialog_shown then
        let sizeText :=
          if jTruthy message then jText message
          else jText totalJ ++ " files".toList
        (true, [Prompt.deviceRef totalJ sizeText])
      else (g.device_ref_dialog_shown, ([] : List Prompt))
    ({ g with
        device_ref_dialog_shown := sp.1,
        status_style := "status-pending".toList,
        status_text := "Enter Device Reference".toList,
        bar := Bar.lit 0, bar_text := "Waiting for input...".toList,
        message_label := "Name this data source".toList,
        file_info := "Found ".toList ++ jText totalJ ++ " files".toList,
        file_types_label := [], current_file_label := [], speed_label := [],
        eject_enabled := false,
        cancel_visible := true, cancel_sensitive := true }, sp.2)
  else if status = "PENDING_DECISION".toList then
    let sp :=
      if ¬g.decision_dialog_shown then
        (true, [Prompt.decision (dictGet l "existing_files".toList (Json.num 0))
                  (dictGet l "files_total".toList (Json.num 0))])
      else (g.decision_dialog_shown, ([] : List Prompt))
    ({ g with
        decision_dialog_shown := sp.1,
        status_style := "status-pending".toList,
        status_text := "Files Already Exist".toList,
        bar := Bar.lit 0, bar_text := "Waiting for input...".toList,
        message_label := jText message,
        eject_enabled := false,
        cancel_visible := true, cancel_sensitive := true }, sp.2)
  else if status = "TRANSFERRING".toList then
    let pct := dictGet l "percent".toList (Json.num 0)
    let done := dictGet l "files_done".toList (Json.num 0)
    let totalJ := dictGet l "files_total".toList (Json.num 0)
    let types := dictGet l "file_types".toList (Json.obj [])
    let currentFile := dictGet l "current_file".toList (Json.str [])
    let speed := dictGet l "speed".toList (Json.str [])
    let eta := dictGet l "eta".toList (Json.str [])
    ({ g with
        status_style := "status-active".toList,
        status_text := "Copying Files...".toList,
        eject_enabled := false,
        cancel_visible := true, cancel_sensitive := true,
        transfer_done := false,
        bar := Bar.frac pct,
        bar_text := jText pct ++ "%".toList,
        message_label := jText message,
        file_info := "Files: ".toList ++ jText done ++ " / ".toList ++ jText totalJ,
        file_types_label :=
          (match types with
            | Json.obj ts => if ts.isEmpty then g.file_types_label else renderTypes ts
            | _ => g.file_types_label),
        current_file_label :=
          if jTruthy currentFile then ">> ".toList ++ jText currentFile else [],
        speed_label :=
          if jTruthy speed && !(speed == Json.str "--".toList) then
            "Speed: ".toList ++ jText speed ++ "  ETA: ".toList ++ jText eta
          else g.speed_label }, [])
  else if status = "COMPLETE".toList then
    let files := dictGet l "files_done".toList
      (dictGet l "files_total".toList (Json.num 0))
    ({ g with
        status_style := "status-complete".toList,
        status_text := "Transfer Complete!".toList,
        bar := Bar.lit 1, bar_text := "100%".toList,
        message_label := jText files ++ " files copied successfully".toList,
        eject_enabled := true, cancel_visible := false,
        transfer_done := true,
        file_info := "Safe to remove USB drive".toList,
        file_types_label := [], current_file_label := [], speed_label := [] }, [])
  else if status = "ALL_DUPLICATES".toList then
    let totalJ := dictGet l "files_total".toList (Json.num 0)
    ({ g with
        status_style := "status-complete".toList,
        status_text := "All Files Already Backed Up".toList,
        bar := Bar.lit 1, bar_text := "100%".toList,
        message_label := "All ".toList ++ jText totalJ ++
          " files already exist on the HDD".toList,
        file_info := "No new files to transfer".toList,
        file_types_label := [], current_file_label := [], speed_label := [],
        eject_enabled := true, cancel_visible := false,
        transfer_done := true }, [])
  else if status = "CANCELLED".toList then
    ({ g with
        status_style := "status-pending".toList,
        status_text := "Transfer Cancelled".toList,
        bar := Bar.lit 0, bar_text := "Cancelled".toList,
        message_label := "Transfer was stopped by user".toList,
        file_info := [], file_types_label := [], current_file_label := [],
        speed_label := [],
        eject_enabled := true, cancel_visible := false,
        transfer_done := true }, [])
  else if status = "FAILED".toList then
    let files := dictGet l "files_done".toList (Json.num 0)
    let tm :=
      if jInt files > 0 then
        ("Completed with Warnings".toList, jText files ++ " files copied".toList)
      else
        ("Transfer Failed".toList,
          if jTruthy message then jText message else "Check logs for details".toList)
    ({ g with
        status_style := "status-failed".toList,
        status_text := tm.1, message_label := tm.2,
        bar := Bar.lit 0, bar_text := "Error".toList,
        file_info := [], file_types_label := [], current_file_label := [],
        speed_label := [],
        eject_enabled := true, cancel_visible := false,
        transfer_done := true }, [])
  else if ¬g.transfer_done then
    ({ g with
        status_style := [],
        status_text := "Insert USB drive to start backup".toList,
        bar := Bar.lit 0, bar_text := "0%".toList,
        message_label := "Waiting for USB...".toList,
        file_info := [], file_types_label := [], current_file_label := [],
        speed_label := [],
        eject_enabled := false, cancel_visible := false }, [])
  else (g, [])

/-- One full `update_transfer` tick (lines 973-1218): read the phase and
the progress file tolerantly, then render.  The first dict access
(`progress.get("message", "")`, line 1017) raises `AttributeError` when
the tolerant read produced a non-dict JSON value, which the surrounding
code does not catch. -/
def update_transfer (statusFile progressFile : Option (Option (List Char)))
    (g : Gui) : Except PyErr (Gui × List Prompt) :=
  match readProgressVal progressFile with
  | Json.obj l => Except.ok (update_transfer_render (readPhase statusFile) l g)
  | _ => Except.error PyErr.attributeError

/-- A run of consecutive polling ticks, all seeing the given phase
sequence and a fixed progress dict; collects every prompt scheduled. -/
def render_run (phases : List (List Char)) (l : List (List Char × Json))
    (g : Gui) : Gui × List Prompt :=
  match phases with
  | [] => (g, [])
  | p :: ps =>
    let r1 := update_transfer_render p l g
    let r2 := render_run ps l r1.1
    (r2.1, r1.2 ++ r2.2)

/-- `PEBLTransferMonitor.reset_to_waiting` (lines 1526-1542): restore the
waiting view and clear `transfer_done` and both dialog latches. -/
def reset_to_waiting (g : Gui) : Gui :=
  { g with
      status_style := [],
      status_text := "Insert USB drive to start backup".toList,
      bar := Bar.lit 0, bar_text := "0%".toList,
      message_label := "Waiting for USB...".toList,
      file_info := [], file_types_label := [], current_file_label := [],
      speed_label := [],
      eject_enabled := false, cancel_visible := false,
      transfer_done := false,
      device_ref_dialog_shown := false, decision_dialog_shown := false }



/-- The coordinator-side transfer files: phase file, progress file, and
the `/tmp/usb-transfer.lock` marker. -/
structure Files where
  statusFile : Option (Option (List Char))
  progressFile : Option (Option (List Char))
  lockFile : Bool
deriving Repr

/-- System state for the handler-level claims: the files, the GUI, the
two external processes killed on cancel, and whether a removable USB
transport other than the fixed `sda` storage is attached (the `lsblk`
probe of `check_usb_removed`). -/
structure Sys where
  files : Files
  gui : Gui
  transferScriptRunning : Bool
  rsyncRunning : Bool
  usbPresent : Bool
deriving Repr

/-- Text the cancel handler writes to the progress file: `json.dumps` of
the zeroed cancelled record (lines 716-723) plus the newline `echo`
appends. -/
def cancelledProgressText : List Char :=
  ("\x7b\"status\": \"cancelled\", \"message\": \"Transfer cancelled by user\", " ++
    "\"percent\": 0, \"files_done\": 0, \"files_total\": 0\x7d\n").toList

/-- `on_cancel` (lines 679-745) after the operator confirms: kill the
transfer script (`on-usb-insert.sh`) and its `rsync` copy sub-process,
overwrite the status file with `CANCELLED` and the progress file with
the zeroed cancelled record (both via `echo`, which appends a newline),
remove the lock marker, mark the transfer done, clear both dialog
latches, and render the cancelled view with eject enabled and the
cancel button disabled and hidden. -/
def on_cancel_yes (s : Sys) : Sys :=
  { s with
      transferScriptRunning := false,
      rsyncRunning := false,
      files := { statusFile := some (some "CANCELLED\n".toList),
                 progressFile := some (some cancelledProgressText),
                 lockFile := false },
      gui := { s.gui with
          transfer_done := true,
          device_ref_dialog_shown := false, decision_dialog_shown := false,
          status_style := "status-pending".toList,
          status_text := "Transfer Cancelled".toList,
          bar := Bar.lit 0, bar_text := "Cancelled".toList,
          message_label := "Transfer was stopped by user".toList,
          file_info := "You can now eject the USB drive".toList,
          file_types_label := [], current_file_label := [], speed_label := [],
          eject_enabled := true,
          cancel_sensitive := false, cancel_visible := false } }

/-- `on_eject` (lines 1374-1394): unmount the drives, clear the
status/progress/lock files, clear the flags and both latches, show the
ejected confirmation, disable eject; `reset_to_waiting` is scheduled for
3 seconds later. -/
def on_eject (s : Sys) : Sys :=
  { s with
      files := { statusFile := none, progressFile := none, lockFile := false },
      gui := { s.gui with
          transfer_done := false,
          decision_dialog_shown := false, device_ref_dialog_shown := false,
          status_text := "USB Ejected - Safe to Remove".toList,
          message_label :=
            "Remove the USB drive, then insert a new one to backup".toList,
          eject_enabled := false } }

/-- The delayed `GLib.timeout_add(3000, self.reset_to_waiting)` event
scheduled by `on_eject`. -/
def eject_reset_event (s : Sys) : Sys :=
  { s with gui := reset_to_waiting s.gui }

/-- `check_usb_removed` (lines 1544-1558): when the transfer is done and
the `lsblk` probe shows no removable USB transport besides `sda`, clear
the status/progress/lock files and reset the view to waiting. -/
def check_usb_removed (s : Sys) : Sys :=
  if s.gui.transfer_done then
    if ¬s.usbPresent then
      { s with
          files := { statusFile := none, progressFile := none, lockFile := false },
          gui := reset_to_waiting s.gui }
    else s
  else s

/-- One transfer-panel poll at system level (scheduled prompts
dropped). -/
def sys_poll (s : Sys) : Except PyErr Sys :=
  match update_transfer s.files.statusFile s.files.progressFile s.gui with
  | Except.ok gp => Except.ok { s with gui := gp.1 }
  | Except.error e => Except.error e

/-- The idle (waiting) view: the status label shows the insert prompt. -/
def isIdleView (g : Gui) : Bool :=
  g.status_text = "Insert USB drive to start backup".toList

/-- Gui states seen across `n` successive polls of a fixed phase and
progress dict, most recent last. -/
def renderStates (phase : List Char) (l : List (List Char × Json)) :
    Nat → Gui → List Gui
  | 0, _ => []
  | n + 1, g =>
    let g1 := (update_transfer_render phase l g).1
    g1 :: renderStates phase l n g1

/-- Number of non-idle-to-idle transitions along a trace of view
flags. -/
def countRises : List Bool → Nat
  | [] => 0
  | [_] => 0
  | a :: b :: t => (if a = false ∧ b = true then 1 else 0) + countRises (b :: t)

/-- The four terminal phases of the pipeline. -/
def terminalPhases : List (List Char) :=
  ["COMPLETE".toList, "ALL_DUPLICATES".toList, "CANCELLED".toList,
    "FAILED".toList]

/-- View trace of the auto-reset scenario built from the source
functions: a terminal phase rendered over `n+1` polls, then
`check_usb_removed` fires with no device attached (clearing the files
and resetting the view), then `k` further polls on the cleared files
(phase read `""`, progress dict `{}`). -/
def auto_reset_trace (phase : List Char) (l : List (List Char × Json))
    (n k : Nat) (g0 : Gui) : List Bool :=
  let gs1 := renderStates phase l (n + 1) g0
  let gR := reset_to_waiting (gs1.getLastD g0)
  (gs1.map isIdleView) ++ [isIdleView gR] ++
    ((renderStates [] [] k gR).map isIdleView)



/-- Producer-shaped progress content whose `file_types` mapping is
garbled: the intact `percent`, `message` and `current_file` pairs in the
documented key order, then `"file_types": ` followed by an opening
brace, the entry text `e` (no braces of its own), and `m` closing braces
(`m = 1` balanced, anything else unbalanced), then the final brace of
the record. -/
def mkMalformedProgress (ds msg cf e : List Char) (m : Nat) : List Char :=
  ['\x7b'] ++ litPercent ++ [' '] ++ ds ++
    [',', ' '] ++ litMessage ++ [' ', '"'] ++ msg ++ ['"', ',', ' '] ++
    litCurrentFile ++ [' ', '"'] ++ cf ++ ['"', ',', ' '] ++
    litFT ++ ['\x7b'] ++ e ++ List.replicate m '\x7d' ++ ['\x7d']

/-- The part of `mkMalformedProgress` before the `file_types` key: this
is what the brace-repair substitution leaves intact. -/
def mkProgressHead (ds msg cf : List Char) : List Char :=
  ['\x7b'] ++ litPercent ++ [' '] ++ ds ++
    [',', ' '] ++ litMessage ++ [' ', '"'] ++ msg ++ ['"', ',', ' '] ++
    litCurrentFile ++ [' ', '"'] ++ cf ++ ['"', ',', ' ']


-- ==================== THEOREMS ====================

/-- C3: for every hour and configured window, `is_in_sync_window` is true
under exactly the two-case rule: `start <= h < end` for a same-day
window, `h >= start or h < end` for an overnight window; in particular
for (22,6) it is `h >= 22 or h < 6` and for (9,17) it is `9 <= h < 17`. -/
theorem C3_sync_window_rule (start_hour end_hour hour : Nat) :
    (start_hour ≤ end_hour →
      (is_in_sync_window start_hour end_hour hour = true ↔
        start_hour ≤ hour ∧ hour < end_hour)) ∧
    (start_hour > end_hour →
      (is_in_sync_window start_hour end_hour hour = true ↔
        hour ≥ start_hour ∨ hour < end_hour)) ∧
    (is_in_sync_window 22 6 hour = true ↔ hour ≥ 22 ∨ hour < 6) ∧
    (is_in_sync_window 9 17 hour = true ↔ 9 ≤ hour ∧ hour < 17) := by
  refine ⟨fun hle => ?_, fun hgt => ?_, ?_, ?_⟩
  · unfold is_in_sync_window
    rw [if_neg (by omega)]
    simp [ge_iff_le]
  · unfold is_in_sync_window
    rw [if_pos hgt]
    simp [ge_iff_le]
  · unfold is_in_sync_window
    rw [if_pos (by norm_num)]
    simp [ge_iff_le]
  · unfold is_in_sync_window
    rw [if_neg (by norm_num)]
    simp [ge_iff_le]

/-- Witness for C3 at the overnight window (22,6) and hour 23. -/
theorem C3_sync_window_rule_witness :
    22 > 6 ∧ (is_in_sync_window 22 6 23 = true ↔ 23 ≥ 22 ∨ 23 < 6) :=
  ⟨by decide, (C3_sync_window_rule 22 6 23).2.1 (by decide)⟩

/-- C4 (code bug): with the custom window (9,17) at 18:00 the sync-panel
projection of `update_sync` reports the schedule as active, because the
`scheduled` branch reuses the overnight formula `now.hour >= start or
now.hour < end` without comparing the hours, contradicting the rule of
spec section 4.2 and the program's own `is_in_sync_window`, which places
18:00 outside the window. -/
theorem C4_schedule_projection_bug :
    update_sync_schedule "scheduled".toList 9 17 18 0 = SchedView.active 9 17 ∧
    is_in_sync_window 9 17 18 = false := by
  constructor
  · rfl
  · decide

/-- C9: switching the mode to `night` or to a custom window whose hours
exclude the current hour kills both external sync processes and removes
`/tmp/gdrive-sync.lock` inside the handler itself; if the new window
includes the current hour, or the new mode is `24hr`, nothing is
terminated. -/
theorem C9_mode_change_revokes_sync (s : SyncSys) (sh eh : Nat) :
    (is_in_sync_window 22 6 s.hour = false →
      (on_sync_mode_night s).backupToGdriveRunning = false ∧
      (on_sync_mode_night s).rcloneSyncRunning = false ∧
      (on_sync_mode_night s).gdriveSyncLock = false) ∧
    (is_in_sync_window 22 6 s.hour = true →
      (on_sync_mode_night s).backupToGdriveRunning = s.backupToGdriveRunning ∧
      (on_sync_mode_night s).rcloneSyncRunning = s.rcloneSyncRunning ∧
      (on_sync_mode_night s).gdriveSyncLock = s.gdriveSyncLock) ∧
    (is_in_sync_window sh eh s.hour = false →
      (on_sync_mode_custom_save sh eh s).backupToGdriveRunning = false ∧
      (on_sync_mode_custom_save sh eh s).rcloneSyncRunning = false ∧
      (on_sync_mode_custom_save sh eh s).gdriveSyncLock = false) ∧
    (is_in_sync_window sh eh s.hour = true →
      (on_sync_mode_custom_save sh eh s).backupToGdriveRunning =
        s.backupToGdriveRunning ∧
      (on_sync_mode_custom_save sh eh s).rcloneSyncRunning = s.rcloneSyncRunning ∧
      (on_sync_mode_custom_save sh eh s).gdriveSyncLock = s.gdriveSyncLock) ∧
    ((on_sync_mode_24hr s).backupToGdriveRunning = s.backupToGdriveRunning ∧
      (on_sync_mode_24hr s).rcloneSyncRunning = s.rcloneSyncRunning ∧
      (on_sync_mode_24hr s).gdriveSyncLock = s.gdriveSyncLock) := by
  have hnight : ¬("night".toList = "24hr".toList) := by decide
  have hsched : ¬("scheduled".toList = "24hr".toList) := by decide
  refine ⟨fun hout => ?_, fun hin => ?_, fun hout => ?_, fun hin => ?_, ?_⟩ <;>
    simp_all [on_sync_mode_night, on_sync_mode_custom_save, on_sync_mode_24hr,
      apply_sync_mode_change, stop_running_sync]

/-- Witness for C9: at 12:00 the night window (22,6) excludes the current
hour, so switching to night mode revokes the active session. -/
theorem C9_mode_change_revokes_sync_witness :
    is_in_sync_window 22 6 12 = false ∧
    (on_sync_mode_night ⟨⟨"24hr".toList, 22, 6⟩, 12, true, true, true⟩).gdriveSyncLock
      = false :=
  ⟨by decide,
    ((C9_mode_change_revokes_sync ⟨⟨"24hr".toList, 22, 6⟩, 12, true, true, true⟩
      9 17).1 (by decide)).2.2⟩

/-- C10: closing the duplicate-resolution dialog writes exactly one
value to the decision file: `skip` exactly when the Skip button's
response id (1) is delivered; every other outcome — the Overwrite
button (2), or dismissing the dialog (`DELETE_EVENT`) — writes
`overwrite`. -/
theorem C10_decision_write (response : Int) :
    (show_decision_dialog_writes response).length = 1 ∧
    (show_decision_dialog_writes response = ["skip".toList] ↔
      response = skip_response) ∧
    (response ≠ skip_response →
      show_decision_dialog_writes response = ["overwrite".toList]) ∧
    show_decision_dialog_writes overwrite_response = ["overwrite".toList] ∧
    show_decision_dialog_writes delete_event_response = ["overwrite".toList] := by
  unfold show_decision_dialog_writes show_decision_dialog_decision skip_response
    overwrite_response delete_event_response
  by_cases hr : response = 1
  · subst hr
    refine ⟨rfl, by simp, fun hne => absurd rfl hne, by decide, by decide⟩
  · rw [if_neg hr]
    refine ⟨rfl, ?_, fun _ => rfl, by decide, by decide⟩
    simp only [List.cons.injEq, and_true]
    constructor
    · intro he
      exact absurd he (by decide)
    · intro he
      exact absurd he hr

/-- Witness for C10 at the dismissal response id. -/
theorem C10_decision_write_witness :
    ((-4 : Int) ≠ skip_response) ∧
    show_decision_dialog_writes (-4) = ["overwrite".toList] :=
  ⟨by decide, (C10_decision_write (-4)).2.2.1 (by decide)⟩

/-- A `PENDING_DECISION` tick always leaves the duplicate-resolution
latch set. -/
theorem render_PD_latch (l : List (List Char × Json)) (g : Gui) :
    (update_transfer_render "PENDING_DECISION".toList l g).1.decision_dialog_shown
      = true := by
  unfold update_transfer_render
  rw [if_neg (by decide), if_neg (by decide), if_pos rfl]
  by_cases h : g.decision_dialog_shown <;> simp [h]

/-- With the latch already set, a `PENDING_DECISION` tick schedules no
dialog. -/
theorem render_PD_prompts_shown (l : List (List Char × Json)) (g : Gui)
    (h : g.decision_dialog_shown = true) :
    (update_transfer_render "PENDING_DECISION".toList l g).2 = [] := by
  unfold update_transfer_render
  rw [if_neg (by decide), if_neg (by decide), if_pos rfl]
  simp [h]

/-- With the latch clear, a `PENDING_DECISION` tick schedules exactly the
duplicate-resolution dialog. -/
theorem render_PD_prompts_fresh (l : List (List Char × Json)) (g : Gui)
    (h : g.decision_dialog_shown = false) :
    (update_transfer_render "PENDING_DECISION".toList l g).2 =
      [Prompt.decision (dictGet l "existing_files".toList (Json.num 0))
        (dictGet l "files_total".toList (Json.num 0))] := by
  unfold update_transfer_render
  rw [if_neg (by decide), if_neg (by decide), if_pos rfl]
  simp [h]

/-- A `PENDING_NAME` tick always leaves the device-naming latch set. -/
theorem render_PN_latch (l : List (List Char × Json)) (g : Gui) :
    (update_transfer_render "PENDING_NAME".toList l g).1.device_ref_dialog_shown
      = true := by
  unfold update_transfer_render
  rw [if_neg (by decide), if_pos rfl]
  by_cases h : g.device_ref_dialog_shown <;> simp [h]

/-- With the latch already set, a `PENDING_NAME` tick schedules no
dialog. -/
theorem render_PN_prompts_shown (l : List (List Char × Json)) (g : Gui)
    (h : g.device_ref_dialog_shown = true) :
    (update_transfer_render "PENDING_NAME".toList l g).2 = [] := by
  unfold update_transfer_render
  rw [if_neg (by decide), if_pos rfl]
  simp [h]

/-- With the latch clear, a `PENDING_NAME` tick schedules exactly one
device-naming dialog. -/
theorem render_PN_count_fresh (l : List (List Char × Json)) (g : Gui)
    (h : g.device_ref_dialog_shown = false) :
    List.countP isDeviceRefPrompt
      (update_transfer_render "PENDING_NAME".toList l g).2 = 1 := by
  unfold update_transfer_render
  rw [if_neg (by decide), if_pos rfl]
  simp [h, isDeviceRefPrompt]

/-- Prompt count over a run of `PENDING_DECISION` ticks: one when the
run starts with the latch clear, none when it starts latched. -/
theorem renderRun_PD_count (l : List (List Char × Json)) :
    ∀ (n : Nat) (g : Gui),
      List.countP isDecisionPrompt
        (render_run (List.replicate n "PENDING_DECISION".toList) l g).2 =
        if n = 0 then 0 else if g.decision_dialog_shown then 0 else 1 := by
  intro n
  induction n with
  | zero => intro g; simp [render_run]
  | succ k ih =>
    intro g
    rw [List.replicate_succ]
    simp only [render_run, List.countP_append]
    rw [ih ((update_transfer_render "PENDING_DECISION".toList l g).1),
      render_PD_latch l g]
    by_cases hs : g.decision_dialog_shown
    · rw [render_PD_prompts_shown l g hs]
      simp [hs]
    · rw [render_PD_prompts_fresh l g (by simpa using hs)]
      simp [hs, isDecisionPrompt]

/-- Prompt count over a run of `PENDING_NAME` ticks. -/
theorem renderRun_PN_count (l : List (List Char × Json)) :
    ∀ (n : Nat) (g : Gui),
      List.countP isDeviceRefPrompt
        (render_run (List.replicate n "PENDING_NAME".toList) l g).2 =
        if n = 0 then 0 else if g.device_ref_dialog_shown then 0 else 1 := by
  intro n
  induction n with
  | zero => intro g; simp [render_run]
  | succ k ih =>
    intro g
    rw [List.replicate_succ]
    simp only [render_run, List.countP_append]
    rw [ih ((update_transfer_render "PENDING_NAME".toList l g).1),
      render_PN_latch l g]
    by_cases hs : g.device_ref_dialog_shown
    · rw [render_PN_prompts_shown l g hs]
      simp [hs]
    · rw [render_PN_count_fresh l g (by simpa using hs)]
      simp [hs]

/-- C1: across a run of consecutive polls that all read
`PENDING_DECISION`, starting at entry with the latch clear, exactly one
duplicate-resolution prompt is scheduled; a tick entered with the latch
set schedules nothing, every tick leaves the latch set (the flag is
assigned before the dialog is queued), and no run of any length ever
schedules more than one prompt.  The same holds for `PENDING_NAME` with
the `device_ref_dialog_shown` latch and the device-naming prompt. -/
theorem C1_prompt_scheduled_exactly_once (l : List (List Char × Json))
    (g : Gui) (n : Nat) (hn : 1 ≤ n) :
    (g.decision_dialog_shown = false →
      List.countP isDecisionPrompt
        (render_run (List.replicate n "PENDING_DECISION".toList) l g).2 = 1) ∧
    (update_transfer_render "PENDING_DECISION".toList l g).1.decision_dialog_shown
      = true ∧
    (∀ g' : Gui, g'.decision_dialog_shown = true →
      (update_transfer_render "PENDING_DECISION".toList l g').2 = []) ∧
    (∀ (g' : Gui) (m : Nat),
      List.countP isDecisionPrompt
        (render_run (List.replicate m "PENDING_DECISION".toList) l g').2 ≤ 1) ∧
    (g.device_ref_dialog_shown = false →
      List.countP isDeviceRefPrompt
        (render_run (List.replicate n "PENDING_NAME".toList) l g).2 = 1) ∧
    (update_transfer_render "PENDING_NAME".toList l g).1.device_ref_dialog_shown
      = true ∧
    (∀ g' : Gui, g'.device_ref_dialog_shown = true →
      (update_transfer_render "PENDING_NAME".toList l g').2 = []) ∧
    (∀ (g' : Gui) (m : Nat),
      List.countP isDeviceRefPrompt
        (render_run (List.replicate m "PENDING_NAME".toList) l g').2 ≤ 1) := by
  refine ⟨fun hfresh => ?_, render_PD_latch l g,
    fun g' h => render_PD_prompts_shown l g' h, fun g' m => ?_,
    fun hfresh => ?_, render_PN_latch l g,
    fun g' h => render_PN_prompts_shown l g' h, fun g' m => ?_⟩
  · rw [renderRun_PD_count l n g, if_neg (by omega), if_neg (by simp [hfresh])]
  · rw [renderRun_PD_count l m g']
    split <;> [omega; skip]
    split <;> omega
  · rw [renderRun_PN_count l n g, if_neg (by omega), if_neg (by simp [hfresh])]
  · rw [renderRun_PN_count l m g']
    split <;> [omega; skip]
    split <;> omega

/-- Witness for C1: one-tick run from the freshly initialised window. -/
theorem C1_prompt_scheduled_exactly_once_witness :
    (1 ≤ 1 ∧ initGui.decision_dialog_shown = false) ∧
    List.countP isDecisionPrompt
      (render_run (List.replicate 1 "PENDING_DECISION".toList) [] initGui).2 = 1 :=
  ⟨⟨by decide, by decide⟩,
    (C1_prompt_scheduled_exactly_once [] initGui 1 (by decide)).1 (by decide)⟩

/-- C2 counterexample: from the initial state, the tick sequence
`PENDING_DECISION, TRANSFERRING` leaves the duplicate-resolution latch
still set — advancing past `PENDING_DECISION` does not clear it — and
the re-entering sequence `PENDING_DECISION, TRANSFERRING,
PENDING_DECISION` schedules one prompt in total, not one per entry as
the claim requires. -/
theorem C2_latch_counterexample :
    (render_run ["PENDING_DECISION".toList, "TRANSFERRING".toList] []
        initGui).1.decision_dialog_shown = true ∧
    List.countP isDecisionPrompt
      (render_run ["PENDING_DECISION".toList, "TRANSFERRING".toList,
        "PENDING_DECISION".toList] [] initGui).2 = 1 := by
  constructor <;> decide

/-- C2 amended: the latches are not cleared when the phase merely
advances past the pending state (a `TRANSFERRING` tick leaves both
unchanged); they are cleared only by the cancel handler, the eject
handler, and `reset_to_waiting` (which runs on the eject grace timer and
on USB removal) — and not when the operator answers the dialog.  After
such a reset, a re-entry into `PENDING_DECISION` schedules exactly one
new prompt; a re-entry while the latch is still set schedules none. -/
theorem C2_latch_cleared_only_by_reset (l : List (List Char × Json)) (g : Gui)
    (s : Sys) :
    ((update_transfer_render "TRANSFERRING".toList l g).1.decision_dialog_shown =
        g.decision_dialog_shown ∧
      (update_transfer_render "TRANSFERRING".toList l g).1.device_ref_dialog_shown =
        g.device_ref_dialog_shown) ∧
    ((reset_to_waiting g).decision_dialog_shown = false ∧
      (reset_to_waiting g).device_ref_dialog_shown = false) ∧
    ((on_cancel_yes s).gui.decision_dialog_shown = false ∧
      (on_cancel_yes s).gui.device_ref_dialog_shown = false) ∧
    ((on_eject s).gui.decision_dialog_shown = false ∧
      (on_eject s).gui.device_ref_dialog_shown = false) ∧
    (List.countP isDecisionPrompt
        (update_transfer_render "PENDING_DECISION".toList l
          (reset_to_waiting g)).2 = 1 ∧
      (update_transfer_render "PENDING_DECISION".toList l
        (reset_to_waiting g)).1.decision_dialog_shown = true) ∧
    (List.countP isDeviceRefPrompt
        (update_transfer_render "PENDING_NAME".toList l
          (reset_to_waiting g)).2 = 1 ∧
      (update_transfer_render "PENDING_NAME".toList l
        (reset_to_waiting g)).1.device_ref_dialog_shown = true) ∧
    (g.decision_dialog_shown = true →
      (update_transfer_render "PENDING_DECISION".toList l g).2 = []) := by
  refine ⟨⟨?_, ?_⟩, ⟨rfl, rfl⟩, ⟨rfl, rfl⟩, ⟨rfl, rfl⟩, ⟨?_, render_PD_latch l _⟩,
    ⟨render_PN_count_fresh l _ rfl, render_PN_latch l _⟩,
    fun h => render_PD_prompts_shown l g h⟩
  · unfold update_transfer_render
    rw [if_neg (by decide), if_neg (by decide), if_neg (by decide), if_pos rfl]
  · unfold update_transfer_render
    rw [if_neg (by decide), if_neg (by decide), if_neg (by decide), if_pos rfl]
  · rw [render_PD_prompts_fresh l _ rfl]
    simp [isDecisionPrompt]

/-- Witness for the amended C2 at a latched state. -/
theorem C2_latch_cleared_only_by_reset_witness :
    ({ initGui with decision_dialog_shown := true } : Gui).decision_dialog_shown
      = true ∧
    (update_transfer_render "PENDING_DECISION".toList []
      { initGui with decision_dialog_shown := true }).2 = [] :=
  ⟨by decide,
    (C2_latch_cleared_only_by_reset [] { initGui with decision_dialog_shown := true }
      ⟨⟨none, none, false⟩, initGui, false, false, false⟩).2.2.2.2.2.2 (by decide)⟩

/-- C7: when the operator confirms cancel while the phase reads
`TRANSFERRING`, the handler itself — without waiting for the external
process — kills the transfer script and its rsync copy sub-process,
overwrites the phase file so the next read yields `CANCELLED`,
overwrites the progress file so the next tolerant read yields the zeroed
cancelled record (status `cancelled`, percent 0, files_done 0,
files_total 0), removes the lock marker, immediately renders the
cancelled view, and enables the eject control. -/
theorem C7_cancel_forces_cancelled_state (s : Sys)
    (h : readPhase s.files.statusFile = "TRANSFERRING".toList) :
    (on_cancel_yes s).transferScriptRunning = false ∧
    (on_cancel_yes s).rsyncRunning = false ∧
    readPhase (on_cancel_yes s).files.statusFile = "CANCELLED".toList ∧
    (on_cancel_yes s).files.lockFile = false ∧
    pyGet (readProgressVal (on_cancel_yes s).files.progressFile)
      "status".toList (Json.str []) = Except.ok (Json.str "cancelled".toList) ∧
    pyGet (readProgressVal (on_cancel_yes s).files.progressFile)
      "percent".toList (Json.num 0) = Except.ok (Json.num 0) ∧
    pyGet (readProgressVal (on_cancel_yes s).files.progressFile)
      "files_done".toList (Json.num 0) = Except.ok (Json.num 0) ∧
    pyGet (readProgressVal (on_cancel_yes s).files.progressFile)
      "files_total".toList (Json.num 0) = Except.ok (Json.num 0) ∧
    (on_cancel_yes s).gui.status_text = "Transfer Cancelled".toList ∧
    (on_cancel_yes s).gui.bar = Bar.lit 0 ∧
    (on_cancel_yes s).gui.bar_text = "Cancelled".toList ∧
    (on_cancel_yes s).gui.message_label = "Transfer was stopped by user".toList ∧
    (on_cancel_yes s).gui.transfer_done = true ∧
    (on_cancel_yes s).gui.eject_enabled = true ∧
    (on_cancel_yes s).gui.cancel_visible = false := by
  refine ⟨rfl, rfl, by rfl, rfl, by rfl, by rfl, by rfl, by rfl,
    rfl, rfl, rfl, rfl, rfl, rfl, rfl⟩

/-- Witness for C7 at a mid-transfer state. -/
theorem C7_cancel_forces_cancelled_state_witness :
    readPhase (some (some "TRANSFERRING".toList)) = "TRANSFERRING".toList ∧
    readPhase (on_cancel_yes
      ⟨⟨some (some "TRANSFERRING".toList), some (some "\x7b\"percent\": 40\x7d".toList),
          true⟩,
        initGui, true, true, true⟩).files.statusFile = "CANCELLED".toList :=
  ⟨by decide,
    (C7_cancel_forces_cancelled_state
      ⟨⟨some (some "TRANSFERRING".toList), some (some "\x7b\"percent\": 40\x7d".toList),
          true⟩,
        initGui, true, true, true⟩ (by decide)).2.2.1⟩

/-- Rendering any terminal phase marks the transfer done, shows a
non-idle view, and enables eject. -/
theorem terminal_render_props (phase : List Char) (l : List (List Char × Json))
    (g : Gui) (hph : phase ∈ terminalPhases) :
    (update_transfer_render phase l g).1.transfer_done = true ∧
    isIdleView (update_transfer_render phase l g).1 = false ∧
    (update_transfer_render phase l g).1.eject_enabled = true := by
  simp only [terminalPhases, List.mem_cons, List.not_mem_nil, or_false] at hph
  rcases hph with h | h | h | h <;> subst h
  · unfold update_transfer_render
    rw [if_neg (by decide), if_neg (by decide), if_neg (by decide),
      if_neg (by decide), if_pos rfl]
    exact ⟨rfl, rfl, rfl⟩
  · unfold update_transfer_render
    rw [if_neg (by decide), if_neg (by decide), if_neg (by decide),
      if_neg (by decide), if_neg (by decide), if_pos rfl]
    exact ⟨rfl, rfl, rfl⟩
  · unfold update_transfer_render
    rw [if_neg (by decide), if_neg (by decide), if_neg (by decide),
      if_neg (by decide), if_neg (by decide), if_neg (by decide), if_pos rfl]
    exact ⟨rfl, rfl, rfl⟩
  · unfold update_transfer_render
    rw [if_neg (by decide), if_neg (by decide), if_neg (by decide),
      if_neg (by decide), if_neg (by decide), if_neg (by decide),
      if_neg (by decide), if_pos rfl]
    refine ⟨rfl, ?_, rfl⟩
    unfold isIdleView
    dsimp only
    split <;> rfl

/-- Every state along a run of terminal-phase polls is a non-idle,
transfer-done, eject-enabled view. -/
theorem renderStates_terminal (phase : List Char) (l : List (List Char × Json))
    (hph : phase ∈ terminalPhases) :
    ∀ (n : Nat) (g : Gui), ∀ x ∈ renderStates phase l n g,
      isIdleView x = false ∧ x.transfer_done = true ∧ x.eject_enabled = true := by
  intro n
  induction n with
  | zero => intro g x hx; simp [renderStates] at hx
  | succ k ih =>
    intro g x hx
    simp only [renderStates, List.mem_cons] at hx
    rcases hx with hx | hx
    · subst hx
      have := terminal_render_props phase l g hph
      exact ⟨this.2.1, this.1, this.2.2⟩
    · exact ih _ x hx

/-- The waiting branch: with no phase token and the transfer not done,
a poll shows the idle view and keeps `transfer_done` clear. -/
theorem render_waiting (l : List (List Char × Json)) (g : Gui)
    (h : g.transfer_done = false) :
    isIdleView (update_transfer_render [] l g).1 = true ∧
    (update_transfer_render [] l g).1.transfer_done = false := by
  unfold update_transfer_render
  rw [if_neg (by decide), if_neg (by decide), if_neg (by decide),
    if_neg (by decide), if_neg (by decide), if_neg (by decide),
    if_neg (by decide), if_neg (by decide), if_pos (by simp [h])]
  exact ⟨rfl, h⟩

/-- Every state along a run of polls over the cleared files stays the
idle view. -/
theorem renderStates_idle :
    ∀ (k : Nat) (g : Gui), g.transfer_done = false →
      ∀ x ∈ renderStates [] [] k g,
        isIdleView x = true ∧ x.transfer_done = false := by
  intro k
  induction k with
  | zero => intro g _ x hx; simp [renderStates] at hx
  | succ m ih =>
    intro g hg x hx
    simp only [renderStates, List.mem_cons] at hx
    have hw := render_waiting [] g hg
    rcases hx with hx | hx
    · subst hx; exact hw
    · exact ih _ hw.2 x hx

/-- Length of a poll trace. -/
theorem renderStates_length (phase : List Char) (l : List (List Char × Json)) :
    ∀ (n : Nat) (g : Gui), (renderStates phase l n g).length = n := by
  intro n
  induction n with
  | zero => intro g; rfl
  | succ k ih => intro g; simp [renderStates, ih]

/-- A constant-true trace has no rises. -/
theorem countRises_replicate_true : ∀ q, countRises (List.replicate q true) = 0 := by
  intro q
  induction q with
  | zero => rfl
  | succ m ih =>
    cases m with
    | zero => rfl
    | succ m2 =>
      show countRises (true :: true :: List.replicate m2 true) = 0
      unfold countRises
      simpa using ih

/-- A block of falses followed by a block of trues has exactly one
rise. -/
theorem countRises_false_true :
    ∀ (p q : Nat), 1 ≤ p → 1 ≤ q →
      countRises (List.replicate p false ++ List.replicate q true) = 1 := by
  intro p
  induction p with
  | zero => omega
  | succ p2 ih =>
    intro q hp hq
    cases p2 with
    | zero =>
      cases q with
      | zero => omega
      | succ q2 =>
        show countRises (false :: true :: List.replicate q2 true) = 1
        unfold countRises
        have := countRises_replicate_true (q2 + 1)
        rw [List.replicate_succ] at this
        simp [this]
    | succ p3 =>
      show countRises (false :: false :: (List.replicate p3 false ++
        List.replicate q true)) = 1
      have step := ih q (by omega) hq
      rw [List.replicate_succ] at step
      unfold countRises
      simpa using step

/-- C8: after a terminal phase is rendered, every further poll keeps a
non-idle, eject-enabled, transfer-done view; the device check is a no-op
while a USB transport is attached and, once none is attached (or on an
explicit eject), clears the status/progress/lock files and resets to the
idle view, which every later poll preserves; along the whole
poll/removal/poll trace exactly one transition into the idle view
occurs. -/
theorem C8_terminal_persists_until_removal_or_eject (phase : List Char)
    (l : List (List Char × Json)) (g0 : Gui) (n k : Nat)
    (hph : phase ∈ terminalPhases) :
    (∀ x ∈ renderStates phase l (n + 1) g0,
      isIdleView x = false ∧ x.transfer_done = true ∧ x.eject_enabled = true) ∧
    countRises (auto_reset_trace phase l n k g0) = 1 ∧
    (∀ s : Sys, s.usbPresent = true → check_usb_removed s = s) ∧
    (∀ s : Sys, s.gui.transfer_done = true → s.usbPresent = false →
      (check_usb_removed s).files.statusFile = none ∧
      (check_usb_removed s).files.progressFile = none ∧
      (check_usb_removed s).files.lockFile = false ∧
      (check_usb_removed s).gui = reset_to_waiting s.gui ∧
      isIdleView (check_usb_removed s).gui = true) ∧
    (∀ s : Sys,
      (on_eject s).files.statusFile = none ∧
      (on_eject s).files.progressFile = none ∧
      (on_eject s).files.lockFile = false ∧
      isIdleView (eject_reset_event (on_eject s)).gui = true) ∧
    (∀ g : Gui, g.transfer_done = false →
      isIdleView (update_transfer_render [] [] g).1 = true ∧
      (update_transfer_render [] [] g).1.transfer_done = false) := by
  refine ⟨renderStates_terminal phase l hph (n + 1) g0, ?_, ?_, ?_, ?_,
    fun g h => render_waiting [] g h⟩
  · unfold auto_reset_trace
    dsimp only
    set gR := reset_to_waiting
      ((renderStates phase l (n + 1) g0).getLastD g0) with hgR
    have h1 : (renderStates phase l (n + 1) g0).map isIdleView =
        List.replicate (n + 1) false := by
      refine List.eq_replicate_iff.2 ⟨by simp [renderStates_length], ?_⟩
      intro b hb
      rcases List.mem_map.1 hb with ⟨x, hx, hbx⟩
      rw [← hbx]
      exact (renderStates_terminal phase l hph (n + 1) g0 x hx).1
    have h3 : gR.transfer_done = false := rfl
    have h4 : (renderStates [] [] k gR).map isIdleView =
        List.replicate k true := by
      refine List.eq_replicate_iff.2 ⟨by simp [renderStates_length], ?_⟩
      intro b hb
      rcases List.mem_map.1 hb with ⟨x, hx, hbx⟩
      rw [← hbx]
      exact (renderStates_idle k gR h3 x hx).1
    have h2 : [isIdleView gR] = [true] := rfl
    have h5 : ([true] ++ List.replicate k true : List Bool) =
        List.replicate (k + 1) true := by
      simp [List.replicate_succ]
    rw [h1, h4, h2, List.append_assoc, h5]
    exact countRises_false_true (n + 1) (k + 1) (by omega) (by omega)
  · intro s hs
    unfold check_usb_removed
    rw [hs]
    by_cases hd : s.gui.transfer_done <;> simp [hd]
  · intro s hdone hs
    unfold check_usb_removed
    rw [hdone, hs]
    exact ⟨rfl, rfl, rfl, rfl, rfl⟩
  · intro s
    exact ⟨rfl, rfl, rfl, rfl⟩

/-- Witness for C8 at the `COMPLETE` phase. -/
theorem C8_terminal_persists_until_removal_or_eject_witness :
    ("COMPLETE".toList ∈ terminalPhases) ∧
    countRises (auto_reset_trace "COMPLETE".toList [] 0 0 initGui) = 1 :=
  ⟨by decide,
    (C8_terminal_persists_until_removal_or_eject "COMPLETE".toList [] initGui 0 0
      (by decide)).2.1⟩

/-- C6 counterexample: a progress file holding the valid JSON text `5`
defeats the totality claim — the tolerant read returns the non-dict
value 5 and `update_transfer` raises `AttributeError` at its first
`progress.get` (line 1017), so no progress record is produced. -/
theorem C6_totality_counterexample :
    readProgressVal (some (some ['5'])) = Json.num 5 ∧
    update_transfer (some (some "TRANSFERRING".toList)) (some (some ['5']))
      initGui = Except.error PyErr.attributeError :=
  ⟨rfl, rfl⟩

/-- C6 amended: `get_status` returns `IDLE` whenever the status file is
absent, unreadable or blank; the phase read and the progress read are
total, the progress read falling back to the field-extractor dict on a
decode error and to each field's default when nothing is recoverable;
and a tick never raises provided the (possibly brace-repaired) progress
content does not parse as valid JSON with a non-object top level — in
that remaining case the first field access raises `AttributeError`. -/
theorem C6_reads_total_except_nonobject_json
    (sf pf : Option (Option (List Char))) (c : List Char) (g : Gui) :
    get_status none = "IDLE".toList ∧
    get_status (some none) = "IDLE".toList ∧
    (pyStrip c = [] → get_status (some (some c)) = "IDLE".toList) ∧
    readPhase none = [] ∧
    readPhase (some none) = [] ∧
    readPhase (some (some c)) = pyStrip c ∧
    readProgressVal none = Json.obj [] ∧
    readProgressVal (some none) = Json.obj [] ∧
    (jsonParse (subFT c) = none →
      readProgressVal (some (some c)) = fallbackProgress c ∧
      ∃ lp, fallbackProgress c = Json.obj lp) ∧
    (jsonParse (subFT c) = none →
      reSearchNum litPercent c = none →
      reSearchStr litMessage c = none →
      reSearchStr litCurrentFile c = none →
      reSearchStr litStatus c = none →
      reSearchStr litSpeed c = none →
      readProgressVal (some (some c)) =
        Json.obj [("percent".toList, Json.num 0),
          ("message".toList, Json.str "Transferring...".toList),
          ("current_file".toList, Json.str []),
          ("status".toList, Json.str "transferring".toList),
          ("speed".toList, Json.str "--".toList)]) ∧
    (∀ lp : List (List Char × Json),
      readProgressVal pf = Json.obj lp →
      ∃ gp, update_transfer sf pf g = Except.ok gp) ∧
    (∀ j : Json, jsonParse (subFT c) = some j →
      (∀ lp : List (List Char × Json), j ≠ Json.obj lp) →
      update_transfer sf (some (some c)) g = Except.error PyErr.attributeError) := by
  refine ⟨rfl, rfl, fun h => by simp [get_status, h], rfl, rfl, rfl, rfl, rfl,
    fun h => ⟨by simp [readProgressVal, h], ⟨_, rfl⟩⟩,
    fun h h1 h2 h3 h4 h5 => ?_, fun lp h => ?_, fun j hj hne => ?_⟩
  · simp [readProgressVal, h, fallbackProgress, h1, h2, h3, h4, h5]
  · unfold update_transfer
    rw [h]
    exact ⟨_, rfl⟩
  · have hv : readProgressVal (some (some c)) = j := by
      simp [readProgressVal, hj]
    unfold update_transfer
    rw [hv]
    cases j with
    | obj lo => exact absurd rfl (hne lo)
    | null => rfl
    | bool b => rfl
    | num n => rfl
    | str t => rfl
    | arr a => rfl

/-- Witness for the amended C6 on unrecoverable garbage content. -/
theorem C6_reads_total_except_nonobject_json_witness :
    jsonParse (subFT "garbage".toList) = none ∧
    readProgressVal (some (some "garbage".toList)) =
      fallbackProgress "garbage".toList :=
  ⟨rfl,
    ((C6_reads_total_except_nonobject_json none none "garbage".toList
      initGui).2.2.2.2.2.2.2.2.1 rfl).1⟩

/-- Unfolding step of the boolean prefix check. -/
theorem isPrefixOf_cons₂ (a b : Char) (as bs : List Char) :
    List.isPrefixOf (a :: as) (b :: bs) = (a == b && List.isPrefixOf as bs) := rfl

/-- A prefix check headed by a quote fails on any other character. -/
theorem isPrefixOf_quote_head_ne {c : Char} (lb : List Char) (t : List Char)
    (h : c ≠ '"') : List.isPrefixOf ('"' :: lb) (c :: t) = false := by
  rw [isPrefixOf_cons₂]
  simp [beq_iff_eq]
  intro he
  exact absurd he.symm h

/-- A decimal digit is not whitespace, not a quote, and not any of the
leading characters the JSON value dispatcher tests for. -/
theorem digit_facts (c : Char) (h : c.isDigit = true) :
    wsChar c = false ∧ c ≠ '"' ∧ c ≠ '\x7b' ∧ c ≠ '[' ∧ c ≠ 't' ∧ c ≠ 'f' ∧
    c ≠ 'n' ∧ c ≠ '-' ∧ c ≠ '\x7d' ∧ c ≠ ',' := by
  have hne : ∀ x : Char, x.isDigit = false → c ≠ x := by
    intro x hx he
    rw [he] at h
    rw [h] at hx
    exact absurd hx (by decide)
  refine ⟨?_, hne _ (by decide), hne _ (by decide), hne _ (by decide),
    hne _ (by decide), hne _ (by decide), hne _ (by decide),
    hne _ (by decide), hne _ (by decide), hne _ (by decide)⟩
  unfold wsChar
  rw [decide_eq_false (hne ' ' (by decide)), decide_eq_false (hne '\t' (by decide)),
    decide_eq_false (hne '\n' (by decide)), decide_eq_false (hne '\r' (by decide)),
    decide_eq_false (hne '\x0b' (by decide)),
    decide_eq_false (hne '\x0c' (by decide))]
  rfl

/-- `skipWs` leaves a non-whitespace head alone. -/
theorem skipWs_cons_not_ws {c : Char} (t : List Char) (h : wsChar c = false) :
    skipWs (c :: t) = c :: t := by
  simp [skipWs, h]

/-- `skipWs` drops one leading space. -/
theorem skipWs_cons_space (t : List Char) : skipWs (' ' :: t) = skipWs t := by
  simp [skipWs, wsChar]

/-- `takeWhile`/`dropWhile` on a block that wholly satisfies the
predicate followed by a stopper. -/
theorem spanAt (p : Char → Bool) (a : List Char) (c : Char) (t : List Char)
    (ha : ∀ x ∈ a, p x = true) (hc : p c = false) :
    (a ++ c :: t).takeWhile p = a ∧ (a ++ c :: t).dropWhile p = c :: t := by
  induction a with
  | nil => simp [List.takeWhile_cons, List.dropWhile_cons, hc]
  | cons x xs ih =>
    have hx : p x = true := ha x (by simp)
    have hxs : ∀ y ∈ xs, p y = true := fun y hy => ha y (by simp [hy])
    have := ih hxs
    simp [List.takeWhile_cons, List.dropWhile_cons, hx, this.1, this.2]

/-- `parseStringBody` on a clean text block closed by a quote. -/
theorem parseStringBody_append (M rest : List Char)
    (hM : ∀ c ∈ M, c ≠ '"' ∧ c ≠ '\\') :
    parseStringBody (M ++ '"' :: rest) = some (M, rest) := by
  induction M with
  | nil =>
    simp only [List.nil_append]
    unfold parseStringBody
    rw [if_pos rfl]
  | cons x xs ih =>
    have hx := hM x (by simp)
    have hxs : ∀ c ∈ xs, c ≠ '"' ∧ c ≠ '\\' := fun c hc => hM c (by simp [hc])
    show parseStringBody (x :: (xs ++ '"' :: rest)) = some (x :: xs, rest)
    unfold parseStringBody
    rw [if_neg hx.1, if_neg hx.2, ih hxs]

/-- `parseDigitsTok` on a digit block followed by a comma: it either
rejects the token (redundant leading zero) or consumes exactly the
digits. -/
theorem parseDigitsTok_digits (ds : List Char) (r : List Char)
    (hne : ds ≠ []) (hd : ∀ c ∈ ds, c.isDigit = true) :
    parseDigitsTok (ds ++ ',' :: r) = none ∨
    parseDigitsTok (ds ++ ',' :: r) = some (digitsToNat ds, ',' :: r) := by
  have hspan := spanAt Char.isDigit ds ',' r hd (by decide)
  unfold parseDigitsTok
  rw [hspan.1, hspan.2, if_neg hne]
  by_cases hz : 1 < ds.length ∧ ds.head? = some '0'
  · left
    rw [if_pos hz]
  · right
    rw [if_neg hz]

/-- `parseIntTok` on a digit block followed by a comma. -/
theorem parseIntTok_digits (ds : List Char) (r : List Char)
    (hne : ds ≠ []) (hd : ∀ c ∈ ds, c.isDigit = true) :
    parseIntTok (ds ++ ',' :: r) = none ∨
    parseIntTok (ds ++ ',' :: r) = some ((digitsToNat ds : Int), ',' :: r) := by
  rcases ds with _ | ⟨d0, ds'⟩
  · exact absurd rfl hne
  · have hd0 := hd d0 (by simp)
    have hdm : d0 ≠ '-' := (digit_facts d0 hd0).2.2.2.2.2.2.2.1
    unfold parseIntTok
    have h1 : ¬((d0 :: ds' ++ ',' :: r).head? = some '-') := by
      simp only [List.cons_append, List.head?_cons, Option.some.injEq]
      exact hdm
    rw [if_neg h1]
    rcases parseDigitsTok_digits (d0 :: ds') r hne hd with h2 | h2 <;>
      simp only [List.cons_append] at h2
    · exact Or.inl (by simp [h2])
    · exact Or.inr (by simp [h2])

/-- `scanFor` steps over a position where the match attempt fails. -/
theorem scanFor_cons_none {α : Type} (att : List Char → Option α) (c : Char)
    (t : List Char) (h : att (c :: t) = none) :
    scanFor att (c :: t) = scanFor att t := by
  conv_lhs => unfold scanFor
  rw [h]

/-- `scanFor` returns the first successful match attempt. -/
theorem scanFor_cons_some {α : Type} (att : List Char → Option α) (c : Char)
    (t : List Char) (v : α) (h : att (c :: t) = some v) :
    scanFor att (c :: t) = some v := by
  conv_lhs => unfold scanFor
  rw [h]

/-- Scanning skips any block with no quote character, for patterns whose
match attempt requires a leading quote. -/
theorem scanFor_append_noquote {α : Type} (att : List Char → Option α)
    (hA : ∀ (c : Char) (t : List Char), c ≠ '"' → att (c :: t) = none) :
    ∀ (a b : List Char), (∀ c ∈ a, c ≠ '"') →
      scanFor att (a ++ b) = scanFor att b := by
  intro a
  induction a with
  | nil => intro b _; rfl
  | cons x xs ih =>
    intro b ha
    have hx : x ≠ '"' := ha x (by simp)
    rw [List.cons_append, scanFor_cons_none att _ _ (hA x _ hx),
      ih b (fun c hc => ha c (by simp [hc]))]

/-- `numAt` needs the literal's leading quote. -/
theorem numAt_head_ne (lb : List Char) (c : Char) (t : List Char)
    (h : c ≠ '"') : numAt ('"' :: lb) (c :: t) = none := by
  unfold numAt
  rw [isPrefixOf_quote_head_ne lb t h]
  rfl

/-- `strAt` needs the literal's leading quote. -/
theorem strAt_head_ne (lb : List Char) (c : Char) (t : List Char)
    (h : c ≠ '"') : strAt ('"' :: lb) (c :: t) = none := by
  unfold strAt
  rw [isPrefixOf_quote_head_ne lb t h]
  rfl

/-- `ftMatch` needs the pattern's leading quote. -/
theorem ftMatch_head_ne (c : Char) (t : List Char) (h : c ≠ '"') :
    ftMatch (c :: t) = none := by
  unfold ftMatch
  have he : litFT ++ ['\x7b'] =
      '"' :: ['f', 'i', 'l', 'e', '_', 't', 'y', 'p', 'e', 's', '"', ':', ' ',
        '\x7b'] := by decide
  rw [he, isPrefixOf_quote_head_ne _ _ h]
  rfl

/-- `subFTAux` on the empty input. -/
theorem subFTAux_nil : ∀ n : Nat, subFTAux n [] = [] := by
  intro n
  cases n <;> rfl

/-- `subFTAux` steps over a position with no repair match. -/
theorem subFTAux_cons_none (fuel : Nat) (c : Char) (t : List Char)
    (h : ftMatch (c :: t) = none) :
    subFTAux (fuel + 1) (c :: t) = c :: subFTAux fuel t := by
  conv_lhs => unfold subFTAux
  rw [h]

/-- `subFTAux` replaces at a repair match and continues after it. -/
theorem subFTAux_cons_match (fuel : Nat) (c : Char) (t rem : List Char)
    (h : ftMatch (c :: t) = some rem) :
    subFTAux (fuel + 1) (c :: t) = ftRepl ++ subFTAux fuel rem := by
  conv_lhs => unfold subFTAux
  rw [h]

/-- The repair scan passes over a quote-free block unchanged. -/
theorem subFTAux_append_noquote :
    ∀ (a : List Char) (m : Nat) (b : List Char), (∀ c ∈ a, c ≠ '"') →
      subFTAux (a.length + m) (a ++ b) = a ++ subFTAux m b := by
  intro a
  induction a with
  | nil => intro m b _; simp
  | cons x xs ih =>
    intro m b ha
    have hx : x ≠ '"' := ha x (by simp)
    have harith : (x :: xs).length + m = xs.length + m + 1 := by
      simp [List.length_cons]
      omega
    rw [List.cons_append, harith,
      subFTAux_cons_none _ _ _ (ftMatch_head_ne x _ hx),
      ih m b (fun c hc => ha c (by simp [hc])), List.cons_append]

/-- A literal body of the shape `b1 ++ '"' :: c2 :: b2` with `b1`
quote-free and `c2 ≠ ','` cannot be a prefix of
`M ++ '"' :: ',' :: rest` when `M` is quote-free: the literal's interior
quote would have to align with the value's closing quote, and the
following characters disagree. -/
theorem not_prefixOf_across_value (b1 : List Char) (c2 : Char)
    (b2 M rest : List Char) (hb1 : ∀ c ∈ b1, c ≠ '"') (hc2c : c2 ≠ ',')
    (hM : ∀ c ∈ M, c ≠ '"') :
    List.isPrefixOf (b1 ++ '"' :: c2 :: b2) (M ++ '"' :: ',' :: rest)
      = false := by
  by_contra hb
  simp only [Bool.not_eq_false] at hb
  obtain ⟨t, ht⟩ := List.isPrefixOf_iff_prefix.mp hb
  set body := b1 ++ '"' :: c2 :: b2 with hbody
  set k := b1.length with hk
  have hklen : k + 1 < body.length := by
    rw [hbody]
    simp [hk]
  have hkq : body[k]? = some '"' := by
    rw [hbody, List.getElem?_append_right (by omega)]
    simp [hk]
  have hknext : body[k + 1]? = some c2 := by
    rw [hbody, List.getElem?_append_right (by omega)]
    have : k + 1 - b1.length = 1 := by omega
    rw [this]
    simp
  have key : ∀ i : Nat, i < body.length →
      body[i]? = (M ++ '"' :: ',' :: rest)[i]? := by
    intro i hi
    rw [← ht, List.getElem?_append_left hi]
  by_cases hkL : k < M.length
  · have h1 := key k (by omega)
    rw [hkq, List.getElem?_append_left hkL, List.getElem?_eq_getElem hkL] at h1
    exact absurd (Option.some_inj.mp h1).symm (hM _ (List.getElem_mem hkL))
  · by_cases hLk : M.length < k
    · have hLb : M.length < body.length := by omega
      have h1 := key M.length hLb
      have h2 : (M ++ '"' :: ',' :: rest)[M.length]? = some '"' := by
        rw [List.getElem?_append_right (by omega)]
        simp
      rw [h2] at h1
      have hLb1 : M.length < b1.length := by omega
      rw [hbody, List.getElem?_append_left hLb1,
        List.getElem?_eq_getElem hLb1] at h1
      exact absurd (Option.some_inj.mp h1) (hb1 _ (List.getElem_mem hLb1))
    · have hkeq : M.length = k := by omega
      have h3 := key (k + 1) hklen
      have h4 : (M ++ '"' :: ',' :: rest)[k + 1]? = some ',' := by
        rw [List.getElem?_append_right (by omega), ← hkeq]
        have : M.length + 1 - M.length = 1 := by omega
        rw [this]
        simp
      rw [h4, hknext] at h3
      exact absurd (Option.some_inj.mp h3) hc2c

/-- A list is a boolean prefix of itself extended. -/
theorem isPrefixOf_self_append :
    ∀ (a b : List Char), List.isPrefixOf a (a ++ b) = true := by
  intro a
  induction a with
  | nil => intro b; simp [List.isPrefixOf]
  | cons x xs ih =>
    intro b
    rw [List.cons_append, isPrefixOf_cons₂, ih b]
    simp

/-- Dropping the matched characters of a brace run leaves nothing. -/
theorem dropWhile_brace_replicate (m : Nat) :
    (List.replicate m '\x7d').dropWhile (fun c => c = '\x7d') = [] := by
  induction m with
  | zero => rfl
  | succ k ih =>
    rw [List.replicate_succ, List.dropWhile_cons]
    simp [ih]

/-- The repair pattern matches at the real `file_types` position and,
since the garbled mapping sits at the record's end, greedily consumes
everything up to and including the record's final brace. -/
theorem ftMatch_real_site (e : List Char) (m : Nat)
    (he : ∀ c ∈ e, c ≠ '\x7d') :
    ftMatch (litFT ++ '\x7b' :: (e ++ List.replicate (m + 1) '\x7d'))
      = some [] := by
  unfold ftMatch
  have hgrp : litFT ++ '\x7b' :: (e ++ List.replicate (m + 1) '\x7d') =
      (litFT ++ ['\x7b']) ++ (e ++ List.replicate (m + 1) '\x7d') := by simp
  rw [hgrp, isPrefixOf_self_append, if_pos rfl]
  have hlen : litFT.length + 1 = (litFT ++ ['\x7b']).length := by simp
  rw [hlen, List.drop_left]
  have hspan := spanAt (fun c => c ≠ '\x7d') e '\x7d' (List.replicate m '\x7d')
    (fun x hx => by simpa using he x hx) (by simp)
  rw [List.replicate_succ]
  dsimp only
  rw [hspan.2]
  simp [dropWhile_brace_replicate m]

/-- A repair-pattern attempt at a quote whose follower is not `f` fails
at the second character. -/
theorem ftMatch_quote_ne (c2 : Char) (T : List Char) (h : c2 ≠ 'f') :
    ftMatch ('"' :: c2 :: T) = none := by
  unfold ftMatch
  have he : litFT ++ ['\x7b'] =
      '"' :: 'f' :: ['i', 'l', 'e', '_', 't', 'y', 'p', 'e', 's', '"', ':', ' ',
        '\x7b'] := by decide
  rw [he, isPrefixOf_cons₂, isPrefixOf_cons₂]
  have hb : ('f' == c2) = false := by
    simp only [beq_eq_false_iff_ne, ne_eq]
    exact fun hf => h hf.symm
  rw [hb]
  simp

/-- A repair-pattern attempt at the opening quote of a string value
fails: the pattern's interior quote cannot align. -/
theorem ftMatch_value_site (M rest : List Char) (hM : ∀ c ∈ M, c ≠ '"') :
    ftMatch ('"' :: (M ++ '"' :: ',' :: rest)) = none := by
  unfold ftMatch
  have he : litFT ++ ['\x7b'] =
      '"' :: (['f', 'i', 'l', 'e', '_', 't', 'y', 'p', 'e', 's'] ++
        '"' :: ':' :: [' ', '\x7b']) := by decide
  rw [he, isPrefixOf_cons₂,
    not_prefixOf_across_value ['f', 'i', 'l', 'e', '_', 't', 'y', 'p', 'e', 's']
      ':' [' ', '\x7b'] M rest (by decide) (by decide) hM]
  simp

/-- `subFT` steps over a position with no repair match. -/
theorem subFT_cons_none (c : Char) (t : List Char)
    (h : ftMatch (c :: t) = none) : subFT (c :: t) = c :: subFT t := by
  unfold subFT
  have hl : (c :: t).length = t.length + 1 := rfl
  rw [hl, subFTAux_cons_none t.length c t h]

/-- `subFT` passes over a quote-free block. -/
theorem subFT_append_noquote (a b : List Char) (ha : ∀ c ∈ a, c ≠ '"') :
    subFT (a ++ b) = a ++ subFT b := by
  unfold subFT
  rw [List.length_append, subFTAux_append_noquote a b.length b ha]

/-- `subFT` at a match that consumes the whole remaining input. -/
theorem subFT_cons_match_nil (c : Char) (t : List Char)
    (h : ftMatch (c :: t) = some []) : subFT (c :: t) = ftRepl := by
  unfold subFT
  have hl : (c :: t).length = t.length + 1 := rfl
  rw [hl, subFTAux_cons_match t.length c t [] h, subFTAux_nil]
  simp

/-- `subFT` replaces the whole garbled `file_types` region (which runs
to the end of the record) with the repaired empty mapping. -/
theorem subFT_real_site (e : List Char) (m : Nat) (he : ∀ c ∈ e, c ≠ '\x7d') :
    subFT (litFT ++ '\x7b' :: (e ++ List.replicate (m + 1) '\x7d')) = ftRepl := by
  have hform : litFT ++ '\x7b' :: (e ++ List.replicate (m + 1) '\x7d') =
      '"' :: (['f', 'i', 'l', 'e', '_', 't', 'y', 'p', 'e', 's', '"', ':', ' '] ++
        '\x7b' :: (e ++ List.replicate (m + 1) '\x7d')) := by
    simp [litFT]
  rw [hform]
  apply subFT_cons_match_nil
  rw [← hform]
  exact ftMatch_real_site e m he

/-- The brace-repair substitution on the malformed template: the intact
head is untouched and the whole garbled `file_types` region — through
the record's final brace, which the greedy `\}+` swallows — becomes the
repaired empty mapping. -/
theorem subFT_mkMalformed (ds msg cf e : List Char) (m : Nat)
    (hds : ∀ c ∈ ds, c.isDigit = true)
    (hmsg : ∀ c ∈ msg, c ≠ '"') (hcf : ∀ c ∈ cf, c ≠ '"')
    (he : ∀ c ∈ e, c ≠ '\x7d') :
    subFT (mkMalformedProgress ds msg cf e m) =
      mkProgressHead ds msg cf ++ ftRepl := by
  have hdsq : ∀ c ∈ ds, c ≠ '"' := fun c hc => (digit_facts c (hds c hc)).2.1
  have hre : mkMalformedProgress ds msg cf e m =
      '\x7b' :: '"' :: 'p' :: (['e', 'r', 'c', 'e', 'n', 't'] ++
        '"' :: ':' :: ' ' :: (ds ++ ',' :: ' ' ::
        '"' :: 'm' :: (['e', 's', 's', 'a', 'g', 'e'] ++
        '"' :: ':' :: ' ' :: '"' :: (msg ++ '"' :: ',' :: ' ' ::
        '"' :: 'c' :: (['u', 'r', 'r', 'e', 'n', 't', '_', 'f', 'i', 'l', 'e'] ++
        '"' :: ':' :: ' ' :: '"' :: (cf ++ '"' :: ',' :: ' ' ::
        (litFT ++ '\x7b' :: (e ++ List.replicate (m + 1) '\x7d')))))))) := by
    simp [mkMalformedProgress, litPercent, litMessage, litCurrentFile, litFT,
      List.replicate_succ']
  rw [hre]
  rw [subFT_cons_none _ _ (ftMatch_head_ne _ _ (by decide)),
    subFT_cons_none _ _ (ftMatch_quote_ne 'p' _ (by decide)),
    subFT_cons_none _ _ (ftMatch_head_ne _ _ (by decide)),
    subFT_append_noquote _ _ (by decide),
    subFT_cons_none _ _ (ftMatch_quote_ne ':' _ (by decide)),
    subFT_cons_none _ _ (ftMatch_head_ne _ _ (by decide)),
    subFT_cons_none _ _ (ftMatch_head_ne _ _ (by decide)),
    subFT_append_noquote _ _ hdsq,
    subFT_cons_none _ _ (ftMatch_head_ne _ _ (by decide)),
    subFT_cons_none _ _ (ftMatch_head_ne _ _ (by decide)),
    subFT_cons_none _ _ (ftMatch_quote_ne 'm' _ (by decide)),
    subFT_cons_none _ _ (ftMatch_head_ne _ _ (by decide)),
    subFT_append_noquote _ _ (by decide),
    subFT_cons_none _ _ (ftMatch_quote_ne ':' _ (by decide)),
    subFT_cons_none _ _ (ftMatch_head_ne _ _ (by decide)),
    subFT_cons_none _ _ (ftMatch_head_ne _ _ (by decide)),
    subFT_cons_none _ _ (ftMatch_value_site msg _ hmsg),
    subFT_append_noquote _ _ hmsg,
    subFT_cons_none _ _ (ftMatch_quote_ne ',' _ (by decide)),
    subFT_cons_none _ _ (ftMatch_head_ne _ _ (by decide)),
    subFT_cons_none _ _ (ftMatch_head_ne _ _ (by decide)),
    subFT_cons_none _ _ (ftMatch_quote_ne 'c' _ (by decide)),
    subFT_cons_none _ _ (ftMatch_head_ne _ _ (by decide)),
    subFT_append_noquote _ _ (by decide),
    subFT_cons_none _ _ (ftMatch_quote_ne ':' _ (by decide)),
    subFT_cons_none _ _ (ftMatch_head_ne _ _ (by decide)),
    subFT_cons_none _ _ (ftMatch_head_ne _ _ (by decide)),
    subFT_cons_none _ _ (ftMatch_value_site cf _ hcf),
    subFT_append_noquote _ _ hcf,
    subFT_cons_none _ _ (ftMatch_quote_ne ',' _ (by decide)),
    subFT_cons_none _ _ (ftMatch_head_ne _ _ (by decide)),
    subFT_cons_none _ _ (ftMatch_head_ne _ _ (by decide)),
    subFT_real_site e m he]
  simp [mkProgressHead, litPercent, litMessage, litCurrentFile]

/-- The `file_types` value of the repaired record parses as the empty
object, consuming everything. -/
theorem pv_ft_value (f : Nat) :
    parseValue (f + 3) (' ' :: '\x7b' :: '\x7d' :: []) =
      some (Json.obj [], []) := by
  show parseValue ((f + 2) + 1) (' ' :: '\x7b' :: '\x7d' :: []) = _
  conv_lhs => unfold parseValue
  have h1 : skipWs (' ' :: '\x7b' :: '\x7d' :: []) = '\x7b' :: '\x7d' :: [] := by
    rw [skipWs_cons_space, skipWs_cons_not_ws _ (by decide)]
  rw [h1]
  simp only [reduceIte]
  show parseObjRest ((f + 1) + 1) (skipWs ['\x7d']) [] true = _
  rw [skipWs_cons_not_ws _ (by decide)]
  conv_lhs => unfold parseObjRest
  rfl

/-- Head-unfolding of `parseValue` at an opening quote. -/
theorem parseValue_quote (fuel : Nat) (X : List Char) :
    parseValue (fuel + 1) ('"' :: X) =
      (match parseStringBody X with
       | some (t, rest) => some (Json.str t, rest)
       | none => none) := rfl

/-- Head-unfolding of `parseValue` at an opening brace. -/
theorem parseValue_brace (fuel : Nat) (X : List Char) :
    parseValue (fuel + 1) ('\x7b' :: X) =
      parseObjRest fuel (skipWs X) [] true := rfl

/-- `parseValue` ignores one leading space. -/
theorem parseValue_space (fuel : Nat) (s : List Char) :
    parseValue (fuel + 1) (' ' :: s) = parseValue (fuel + 1) s := by
  conv_lhs => unfold parseValue
  conv_rhs => unfold parseValue
  rw [skipWs_cons_space]

/-- Head-unfolding of `parseValue` at a digit: the integer token rule
fires. -/
theorem parseValue_int (fuel : Nat) (c : Char) (r : List Char)
    (hdig : c.isDigit = true) :
    parseValue (fuel + 1) (c :: r) =
      (match parseIntTok (c :: r) with
       | some (n, rest) => some (Json.num n, rest)
       | none => none) := by
  obtain ⟨hws, hq, hb, hk, ht, hf, hn, -, -, -⟩ := digit_facts c hdig
  conv_lhs => unfold parseValue
  rw [skipWs_cons_not_ws _ hws]
  simp only []
  rw [if_neg hb, if_neg hk, if_neg hq, if_neg ht, if_neg hf, if_neg hn]

/-- Head-unfolding of `parseObjRest` at a member key's opening quote. -/
theorem parseObjRest_quote (fuel : Nat) (X : List Char)
    (acc : List (List Char × Json)) (allowC : Bool) :
    parseObjRest (fuel + 1) ('"' :: X) acc allowC =
      (match parseStringBody X with
       | none => none
       | some (k, rest) =>
         match skipWs rest with
         | ':' :: rest2 =>
           match parseValue fuel rest2 with
           | none => none
           | some (v, rest3) =>
             match skipWs rest3 with
             | ',' :: rest4 => parseObjRest fuel (skipWs rest4) ((k, v) :: acc) false
             | '\x7d' :: rest4 => some (Json.obj ((k, v) :: acc).reverse, rest4)
             | _ => none
         | _ => none) := rfl

/-- An object-member attempt on the repaired `"file_types": \x7b\x7d` tail
fails: the value parses but the record's closing brace has been consumed
by the greedy repair, so the object is unterminated. -/
theorem por_ft_region (f : Nat) (acc : List (List Char × Json)) (b : Bool) :
    parseObjRest (f + 4) ftRepl acc b = none := rfl

/-- The `current_file` member followed by the repaired tail fails to
complete the object. -/
theorem por_cf_region (f : Nat) (cf : List Char)
    (hcf : ∀ c ∈ cf, c ≠ '"' ∧ c ≠ '\\')
    (acc : List (List Char × Json)) (b : Bool) :
    parseObjRest (f + 5)
      ('"' :: (['c', 'u', 'r', 'r', 'e', 'n', 't', '_', 'f', 'i', 'l', 'e'] ++
        '"' :: ':' :: ' ' :: '"' :: (cf ++ '"' :: ',' :: ' ' :: ftRepl)))
      acc b = none := by
  rw [show f + 5 = (f + 4) + 1 from rfl, parseObjRest_quote,
    parseStringBody_append _ _ (by decide)]
  simp only []
  rw [skipWs_cons_not_ws _ (by decide)]
  simp only []
  rw [show f + 4 = (f + 3) + 1 from rfl, parseValue_space, parseValue_quote,
    parseStringBody_append cf _ hcf]
  simp only []
  rw [skipWs_cons_not_ws _ (by decide)]
  simp only []
  rw [skipWs_cons_space]
  exact por_ft_region f _ _

/-- The `message` member followed by the rest of the repaired record
fails to complete the object. -/
theorem por_msg_region (f : Nat) (msg cf : List Char)
    (hmsg : ∀ c ∈ msg, c ≠ '"' ∧ c ≠ '\\')
    (hcf : ∀ c ∈ cf, c ≠ '"' ∧ c ≠ '\\')
    (acc : List (List Char × Json)) (b : Bool) :
    parseObjRest (f + 6)
      ('"' :: (['m', 'e', 's', 's', 'a', 'g', 'e'] ++
        '"' :: ':' :: ' ' :: '"' :: (msg ++ '"' :: ',' :: ' ' ::
        '"' :: (['c', 'u', 'r', 'r', 'e', 'n', 't', '_', 'f', 'i', 'l', 'e'] ++
        '"' :: ':' :: ' ' :: '"' :: (cf ++ '"' :: ',' :: ' ' :: ftRepl)))))
      acc b = none := by
  rw [show f + 6 = (f + 5) + 1 from rfl, parseObjRest_quote,
    parseStringBody_append _ _ (by decide)]
  simp only []
  rw [skipWs_cons_not_ws _ (by decide)]
  simp only []
  rw [show f + 5 = (f + 4) + 1 from rfl, parseValue_space, parseValue_quote,
    parseStringBody_append msg _ hmsg]
  simp only []
  rw [skipWs_cons_not_ws _ (by decide)]
  simp only []
  rw [skipWs_cons_space, skipWs_cons_not_ws _ (by decide)]
  exact por_cf_region f cf hcf _ _

/-- The `percent` member followed by the rest of the repaired record
fails to complete the object (whether or not the digit token is
accepted). -/
theorem por_percent_region (f : Nat) (ds msg cf : List Char)
    (hne : ds ≠ []) (hds : ∀ c ∈ ds, c.isDigit = true)
    (hmsg : ∀ c ∈ msg, c ≠ '"' ∧ c ≠ '\\')
    (hcf : ∀ c ∈ cf, c ≠ '"' ∧ c ≠ '\\')
    (acc : List (List Char × Json)) (b : Bool) :
    parseObjRest (f + 7)
      ('"' :: (['p', 'e', 'r', 'c', 'e', 'n', 't'] ++
        '"' :: ':' :: ' ' :: (ds ++ ',' :: ' ' ::
        '"' :: (['m', 'e', 's', 's', 'a', 'g', 'e'] ++
        '"' :: ':' :: ' ' :: '"' :: (msg ++ '"' :: ',' :: ' ' ::
        '"' :: (['c', 'u', 'r', 'r', 'e', 'n', 't', '_', 'f', 'i', 'l', 'e'] ++
        '"' :: ':' :: ' ' :: '"' :: (cf ++ '"' :: ',' :: ' ' :: ftRepl)))))))
      acc b = none := by
  rw [show f + 7 = (f + 6) + 1 from rfl, parseObjRest_quote,
    parseStringBody_append _ _ (by decide)]
  simp only []
  rw [skipWs_cons_not_ws _ (by decide)]
  simp only []
  rw [show f + 6 = (f + 5) + 1 from rfl, parseValue_space]
  rcases ds with _ | ⟨d0, ds'⟩
  · exact absurd rfl hne
  · have hd0 : d0.isDigit = true := hds d0 (by simp)
    rw [List.cons_append, parseValue_int _ _ _ hd0]
    have hit := parseIntTok_digits (d0 :: ds')
      (' ' :: '"' :: (['m', 'e', 's', 's', 'a', 'g', 'e'] ++
        '"' :: ':' :: ' ' :: '"' :: (msg ++ '"' :: ',' :: ' ' ::
        '"' :: (['c', 'u', 'r', 'r', 'e', 'n', 't', '_', 'f', 'i', 'l', 'e'] ++
        '"' :: ':' :: ' ' :: '"' :: (cf ++ '"' :: ',' :: ' ' :: ftRepl)))))
      hne hds
    rw [List.cons_append] at hit
    rcases hit with h | h
    · rw [h]
    · rw [h]
      simp only []
      rw [skipWs_cons_not_ws _ (by decide)]
      simp only []
      rw [skipWs_cons_space, skipWs_cons_not_ws _ (by decide)]
      exact por_msg_region f msg cf hmsg hcf _ _

/-- The repaired record as a whole is rejected by the JSON value parser:
its final brace is gone. -/
theorem parseValue_repaired_none (f : Nat) (ds msg cf : List Char)
    (hne : ds ≠ []) (hds : ∀ c ∈ ds, c.isDigit = true)
    (hmsg : ∀ c ∈ msg, c ≠ '"' ∧ c ≠ '\\')
    (hcf : ∀ c ∈ cf, c ≠ '"' ∧ c ≠ '\\') :
    parseValue (f + 8) (mkProgressHead ds msg cf ++ ftRepl) = none := by
  have hre : mkProgressHead ds msg cf ++ ftRepl =
      '\x7b' :: ('"' :: (['p', 'e', 'r', 'c', 'e', 'n', 't'] ++
        '"' :: ':' :: ' ' :: (ds ++ ',' :: ' ' ::
        '"' :: (['m', 'e', 's', 's', 'a', 'g', 'e'] ++
        '"' :: ':' :: ' ' :: '"' :: (msg ++ '"' :: ',' :: ' ' ::
        '"' :: (['c', 'u', 'r', 'r', 'e', 'n', 't', '_', 'f', 'i', 'l', 'e'] ++
        '"' :: ':' :: ' ' :: '"' :: (cf ++ '"' :: ',' :: ' ' :: ftRepl))))))) := by
    simp [mkProgressHead, litPercent, litMessage, litCurrentFile]
  rw [hre, show f + 8 = (f + 7) + 1 from rfl, parseValue_brace,
    skipWs_cons_not_ws _ (by decide)]
  exact por_percent_region f ds msg cf hne hds hmsg hcf [] true

/-- `json.loads` rejects the repaired record. -/
theorem jsonParse_repaired_none (ds msg cf : List Char)
    (hne : ds ≠ []) (hds : ∀ c ∈ ds, c.isDigit = true)
    (hmsg : ∀ c ∈ msg, c ≠ '"' ∧ c ≠ '\\')
    (hcf : ∀ c ∈ cf, c ≠ '"' ∧ c ≠ '\\') :
    jsonParse (mkProgressHead ds msg cf ++ ftRepl) = none := by
  obtain ⟨f, hf⟩ :
      ∃ f, 2 * (mkProgressHead ds msg cf ++ ftRepl).length + 2 = f + 8 := by
    refine ⟨2 * (mkProgressHead ds msg cf ++ ftRepl).length - 6, ?_⟩
    have h3 : 3 ≤ (mkProgressHead ds msg cf ++ ftRepl).length := by
      rw [List.length_append]
      have h16 : ftRepl.length = 16 := by decide
      omega
    omega
  unfold jsonParse
  rw [hf, parseValue_repaired_none f ds msg cf hne hds hmsg hcf]


/-- The malformed template regrouped into scan form: each position of
interest split off as a cons. -/
theorem mkMalformed_regroup (ds msg cf e : List Char) (m : Nat) :
    mkMalformedProgress ds msg cf e m =
      '\x7b' :: '"' :: 'p' :: (['e', 'r', 'c', 'e', 'n', 't'] ++
        '"' :: ':' :: ' ' :: (ds ++ ',' :: ' ' ::
        '"' :: 'm' :: (['e', 's', 's', 'a', 'g', 'e'] ++
        '"' :: ':' :: ' ' :: '"' :: (msg ++ '"' :: ',' :: ' ' ::
        '"' :: 'c' :: (['u', 'r', 'r', 'e', 'n', 't', '_', 'f', 'i', 'l', 'e'] ++
        '"' :: ':' :: ' ' :: '"' :: (cf ++ '"' :: ',' :: ' ' ::
        (litFT ++ '\x7b' :: (e ++ List.replicate (m + 1) '\x7d')))))))) := by
  simp [mkMalformedProgress, litPercent, litMessage, litCurrentFile, litFT,
    List.replicate_succ']

/-- A two-character prefix disagreement right after a shared leading
quote. -/
theorem isPrefixOf_quote2_ne (c2 : Char) (lb : List Char) (d : Char)
    (t : List Char) (h : d ≠ c2) :
    List.isPrefixOf ('"' :: c2 :: lb) ('"' :: d :: t) = false := by
  rw [isPrefixOf_cons₂, isPrefixOf_cons₂]
  have hb : (c2 == d) = false := by
    simp only [beq_eq_false_iff_ne, ne_eq]
    exact fun hf => h hf.symm
  rw [hb]
  simp

/-- A string-field attempt at a quote whose follower differs from the
literal's second character fails. -/
theorem strAt_quote2_ne (c2 : Char) (lb : List Char) (d : Char)
    (t : List Char) (h : d ≠ c2) :
    strAt ('"' :: c2 :: lb) ('"' :: d :: t) = none := by
  unfold strAt
  rw [isPrefixOf_quote2_ne c2 lb d t h]
  rfl

/-- A string-field attempt at the opening quote of an intact string value
fails: the literal's interior quote cannot align with the value's closing
quote. -/
theorem strAt_value_site (b1 : List Char) (c2 : Char) (b2 M rest : List Char)
    (hb1 : ∀ c ∈ b1, c ≠ '"') (hc2c : c2 ≠ ',') (hM : ∀ c ∈ M, c ≠ '"') :
    strAt ('"' :: (b1 ++ '"' :: c2 :: b2)) ('"' :: (M ++ '"' :: ',' :: rest)) =
      none := by
  unfold strAt
  rw [isPrefixOf_cons₂, not_prefixOf_across_value b1 c2 b2 M rest hb1 hc2c hM]
  simp

/-- The number-field attempt succeeds right at its literal. -/
theorem numAt_hit (lit ds rest : List Char) (hne : ds ≠ [])
    (hds : ∀ c ∈ ds, c.isDigit = true) :
    numAt lit (lit ++ ' ' :: (ds ++ ',' :: rest)) = some (digitsToNat ds) := by
  rcases ds with _ | ⟨d0, ds'⟩
  · exact absurd rfl hne
  · unfold numAt
    rw [isPrefixOf_self_append, if_pos rfl]
    dsimp only
    rw [List.drop_left]
    have hws : ∀ x ∈ [' '], wsChar x = true := by decide
    have hspan2 := spanAt wsChar [' '] d0 (ds' ++ ',' :: rest) hws
      (digit_facts d0 (hds d0 (by simp))).1
    have hspan := spanAt Char.isDigit (d0 :: ds') ',' rest hds (by decide)
    simp only [List.singleton_append] at hspan2
    simp only [List.cons_append] at hspan ⊢
    rw [hspan2.2, hspan.1]
    have hcne : ¬(d0 :: ds' = []) := by simp
    rw [if_neg hcne]

/-- The string-field attempt succeeds right at its literal. -/
theorem strAt_hit (lit M rest : List Char) (hM : ∀ c ∈ M, c ≠ '"') :
    strAt lit (lit ++ ' ' :: '"' :: (M ++ '"' :: rest)) = some M := by
  unfold strAt
  rw [isPrefixOf_self_append, if_pos rfl, List.drop_left, List.dropWhile_cons,
    if_pos (by decide), List.dropWhile_cons, if_neg (by decide)]
  simp only []
  have hspan := spanAt (fun c => c ≠ '"') M '"' rest
    (fun x hx => by simpa using hM x hx) (by simp)
  rw [hspan.2]
  simp only []
  rw [hspan.1]

/-- The percent extractor fails away from a quote. -/
theorem numAtPercent_head_ne (c : Char) (t : List Char) (h : c ≠ '"') :
    numAt litPercent (c :: t) = none :=
  numAt_head_ne ['p', 'e', 'r', 'c', 'e', 'n', 't', '"', ':'] c t h

/-- The message extractor fails away from a quote. -/
theorem strAtMsg_head_ne (c : Char) (t : List Char) (h : c ≠ '"') :
    strAt litMessage (c :: t) = none :=
  strAt_head_ne ['m', 'e', 's', 's', 'a', 'g', 'e', '"', ':'] c t h

/-- The message extractor fails at a quote not followed by `m`. -/
theorem strAtMsg_quote2_ne (d : Char) (t : List Char) (h : d ≠ 'm') :
    strAt litMessage ('"' :: d :: t) = none :=
  strAt_quote2_ne 'm' ['e', 's', 's', 'a', 'g', 'e', '"', ':'] d t h

/-- The current-file extractor fails away from a quote. -/
theorem strAtCf_head_ne (c : Char) (t : List Char) (h : c ≠ '"') :
    strAt litCurrentFile (c :: t) = none :=
  strAt_head_ne ['c', 'u', 'r', 'r', 'e', 'n', 't', '_', 'f', 'i', 'l', 'e', '"', ':']
    c t h

/-- The current-file extractor fails at a quote not followed by `c`. -/
theorem strAtCf_quote2_ne (d : Char) (t : List Char) (h : d ≠ 'c') :
    strAt litCurrentFile ('"' :: d :: t) = none :=
  strAt_quote2_ne 'c' ['u', 'r', 'r', 'e', 'n', 't', '_', 'f', 'i', 'l', 'e', '"', ':']
    d t h

/-- The current-file extractor fails at the opening quote of an intact
string value. -/
theorem strAtCf_value_site (M rest : List Char) (hM : ∀ c ∈ M, c ≠ '"') :
    strAt litCurrentFile ('"' :: (M ++ '"' :: ',' :: rest)) = none :=
  strAt_value_site ['c', 'u', 'r', 'r', 'e', 'n', 't', '_', 'f', 'i', 'l', 'e']
    ':' [] M rest (by decide) (by decide) hM

/-- `re.search` for the percent field on the malformed record captures
the intact digit run. -/
theorem reSearchNum_percent (ds msg cf e : List Char) (m : Nat)
    (hne : ds ≠ []) (hds : ∀ c ∈ ds, c.isDigit = true) :
    reSearchNum litPercent (mkMalformedProgress ds msg cf e m) =
      some (digitsToNat ds) := by
  unfold reSearchNum
  rw [mkMalformed_regroup]
  rw [scanFor_cons_none _ _ _ (numAtPercent_head_ne _ _ (by decide))]
  exact scanFor_cons_some _ _ _ _ (numAt_hit litPercent ds _ hne hds)

/-- `re.search` for the message field on the malformed record captures
the intact message value. -/
theorem reSearchStr_message (ds msg cf e : List Char) (m : Nat)
    (hds : ∀ c ∈ ds, c.isDigit = true) (hmsg : ∀ c ∈ msg, c ≠ '"') :
    reSearchStr litMessage (mkMalformedProgress ds msg cf e m) = some msg := by
  have hdsq : ∀ c ∈ ds, c ≠ '"' := fun c hc => (digit_facts c (hds c hc)).2.1
  unfold reSearchStr
  rw [mkMalformed_regroup]
  rw [scanFor_cons_none _ _ _ (strAtMsg_head_ne _ _ (by decide)),
    scanFor_cons_none _ _ _ (strAtMsg_quote2_ne 'p' _ (by decide)),
    scanFor_cons_none _ _ _ (strAtMsg_head_ne _ _ (by decide)),
    scanFor_append_noquote _ strAtMsg_head_ne _ _ (by decide),
    scanFor_cons_none _ _ _ (strAtMsg_quote2_ne ':' _ (by decide)),
    scanFor_cons_none _ _ _ (strAtMsg_head_ne _ _ (by decide)),
    scanFor_cons_none _ _ _ (strAtMsg_head_ne _ _ (by decide)),
    scanFor_append_noquote _ strAtMsg_head_ne _ _ hdsq,
    scanFor_cons_none _ _ _ (strAtMsg_head_ne _ _ (by decide)),
    scanFor_cons_none _ _ _ (strAtMsg_head_ne _ _ (by decide))]
  exact scanFor_cons_some _ _ _ _ (strAt_hit litMessage msg _ hmsg)

/-- `re.search` for the current-file field on the malformed record
captures the intact current-file value. -/
theorem reSearchStr_current_file (ds msg cf e : List Char) (m : Nat)
    (hds : ∀ c ∈ ds, c.isDigit = true) (hmsg : ∀ c ∈ msg, c ≠ '"')
    (hcf : ∀ c ∈ cf, c ≠ '"') :
    reSearchStr litCurrentFile (mkMalformedProgress ds msg cf e m) = some cf := by
  have hdsq : ∀ c ∈ ds, c ≠ '"' := fun c hc => (digit_facts c (hds c hc)).2.1
  unfold reSearchStr
  rw [mkMalformed_regroup]
  rw [scanFor_cons_none _ _ _ (strAtCf_head_ne _ _ (by decide)),
    scanFor_cons_none _ _ _ (strAtCf_quote2_ne 'p' _ (by decide)),
    scanFor_cons_none _ _ _ (strAtCf_head_ne _ _ (by decide)),
    scanFor_append_noquote _ strAtCf_head_ne _ _ (by decide),
    scanFor_cons_none _ _ _ (strAtCf_quote2_ne ':' _ (by decide)),
    scanFor_cons_none _ _ _ (strAtCf_head_ne _ _ (by decide)),
    scanFor_cons_none _ _ _ (strAtCf_head_ne _ _ (by decide)),
    scanFor_append_noquote _ strAtCf_head_ne _ _ hdsq,
    scanFor_cons_none _ _ _ (strAtCf_head_ne _ _ (by decide)),
    scanFor_cons_none _ _ _ (strAtCf_head_ne _ _ (by decide)),
    scanFor_cons_none _ _ _ (strAtCf_quote2_ne 'm' _ (by decide)),
    scanFor_cons_none _ _ _ (strAtCf_head_ne _ _ (by decide)),
    scanFor_append_noquote _ strAtCf_head_ne _ _ (by decide),
    scanFor_cons_none _ _ _ (strAtCf_quote2_ne ':' _ (by decide)),
    scanFor_cons_none _ _ _ (strAtCf_head_ne _ _ (by decide)),
    scanFor_cons_none _ _ _ (strAtCf_head_ne _ _ (by decide)),
    scanFor_cons_none _ _ _ (strAtCf_value_site msg _ hmsg),
    scanFor_append_noquote _ strAtCf_head_ne _ _ hmsg,
    scanFor_cons_none _ _ _ (strAtCf_quote2_ne ',' _ (by decide)),
    scanFor_cons_none _ _ _ (strAtCf_head_ne _ _ (by decide)),
    scanFor_cons_none _ _ _ (strAtCf_head_ne _ _ (by decide))]
  exact scanFor_cons_some _ _ _ _ (strAt_hit litCurrentFile cf _ hcf)


/-- C5: for every progress-file content of the documented shape whose
`file_types` mapping is garbled with unbalanced braces — one opening
brace, a brace-free entry text and `m ≠ 1` closing braces — while the
`percent`, `message` and `current_file` pairs are intact, the tolerant
read of `update_transfer` still yields the three correct values: the
greedy brace repair swallows the record's final brace, `json.loads`
rejects the repaired text, and the per-field regex extractors then
recover each value from the original content. -/
theorem C5_tolerant_read_recovers_fields (ds msg cf e : List Char) (m : Nat)
    (hne : ds ≠ []) (hds : ∀ c ∈ ds, c.isDigit = true)
    (hmsg : ∀ c ∈ msg, c ≠ '"' ∧ c ≠ '\\')
    (hcf : ∀ c ∈ cf, c ≠ '"' ∧ c ≠ '\\')
    (he : ∀ c ∈ e, c ≠ '\x7d') (hm : m ≠ 1) :
    pyGet (readProgressVal (some (some (mkMalformedProgress ds msg cf e m))))
        "percent".toList (Json.num 0) =
      Except.ok (Json.num (digitsToNat ds)) ∧
    pyGet (readProgressVal (some (some (mkMalformedProgress ds msg cf e m))))
        "message".toList (Json.str []) = Except.ok (Json.str msg) ∧
    pyGet (readProgressVal (some (some (mkMalformedProgress ds msg cf e m))))
        "current_file".toList (Json.str []) = Except.ok (Json.str cf) := by
  have hmq : ∀ c ∈ msg, c ≠ '"' := fun c hc => (hmsg c hc).1
  have hcq : ∀ c ∈ cf, c ≠ '"' := fun c hc => (hcf c hc).1
  have hread :
      readProgressVal (some (some (mkMalformedProgress ds msg cf e m))) =
        fallbackProgress (mkMalformedProgress ds msg cf e m) := by
    unfold readProgressVal
    simp only []
    rw [subFT_mkMalformed ds msg cf e m hds hmq hcq he,
      jsonParse_repaired_none ds msg cf hne hds hmsg hcf]
  rw [hread]
  unfold fallbackProgress
  rw [reSearchNum_percent ds msg cf e m hne hds,
    reSearchStr_message ds msg cf e m hds hmq,
    reSearchStr_current_file ds msg cf e m hds hmq hcq]
  exact ⟨rfl, rfl, rfl⟩

/-- Witness for C5: a concrete malformed record (`m = 0`, the mapping is
never closed before the record's final brace) recovers percent 42,
message `Copy` and current file `a.txt`. -/
theorem C5_tolerant_read_recovers_fields_witness :
    pyGet (readProgressVal (some (some (mkMalformedProgress
        ['4', '2'] ['C', 'o', 'p', 'y'] ['a', '.', 't', 'x', 't']
        ['"', 'j', 'p', 'g', '"', ':', ' ', '3'] 0))))
        "percent".toList (Json.num 0) = Except.ok (Json.num 42) ∧
    pyGet (readProgressVal (some (some (mkMalformedProgress
        ['4', '2'] ['C', 'o', 'p', 'y'] ['a', '.', 't', 'x', 't']
        ['"', 'j', 'p', 'g', '"', ':', ' ', '3'] 0))))
        "message".toList (Json.str []) =
      Except.ok (Json.str ['C', 'o', 'p', 'y']) ∧
    pyGet (readProgressVal (some (some (mkMalformedProgress
        ['4', '2'] ['C', 'o', 'p', 'y'] ['a', '.', 't', 'x', 't']
        ['"', 'j', 'p', 'g', '"', ':', ' ', '3'] 0))))
        "current_file".toList (Json.str []) =
      Except.ok (Json.str ['a', '.', 't', 'x', 't']) :=
  C5_tolerant_read_recovers_fields
    ['4', '2'] ['C', 'o', 'p', 'y'] ['a', '.', 't', 'x', 't']
    ['"', 'j', 'p', 'g', '"', ':', ' ', '3'] 0
    (by decide) (by decide) (by decide) (by decide) (by decide) (by decide)
